import Mathlib

/-!
OCPP 1.6 central-system shell (`ocpp1.6/central_system.go`)

A shallow embedding of the central-system shell: the pre-flight checks of
`SendRequestAsync`, the typed action methods and their generic callbacks, the
inbound dispatcher `handleIncomingRequest`, the reply helpers `sendResponse`,
`notImplementedError`, `notSupportedError`, the disconnect closure of
`SetChargePointDisconnectedHandler`, `handleIncomingConfirmation` and the
errors channel.

Conventions of the embedding.

* Strings stay strings: client ids, request ids, feature (action) names, profile
  names and error codes are Go strings in the source.
* Calls into collaborators (the `ocppj.Server`, the handlers, the callbacks)
  are recorded, in program order, in a trace of `Event`s; what such a call
  returns is a field of the `Server` record or of a handler record.
* A run ends in one of three ways (`Status`): it returns, it panics (nil
  interface method call, failed type assertion), or it blocks on the send
  into the errors channel.
* The goroutine started by `handleIncomingRequest` is run to completion in
  line: the trace is the sequence of effects of that goroutine.
-/

namespace Ocpp16

/-! ## Constants declared in the feature packages -/

namespace core
/-- Modelled from the spec: the profile-name constant `core.ProfileName` is declared in package
`core`; the spec's profile tag is used as its value. -/
def ProfileName : String := "Core"
/-- Modelled from the spec: feature-name constant of package `core`. -/
def BootNotificationFeatureName : String := "BootNotification"
/-- Modelled from the spec: feature-name constant of package `core`. -/
def AuthorizeFeatureName : String := "Authorize"
/-- Modelled from the spec: feature-name constant of package `core`. -/
def ChangeAvailabilityFeatureName : String := "ChangeAvailability"
/-- Modelled from the spec: feature-name constant of package `core`. -/
def ChangeConfigurationFeatureName : String := "ChangeConfiguration"
/-- Modelled from the spec: feature-name constant of package `core`. -/
def ClearCacheFeatureName : String := "ClearCache"
/-- Modelled from the spec: feature-name constant of package `core`. -/
def DataTransferFeatureName : String := "DataTransfer"
/-- Modelled from the spec: feature-name constant of package `core`. -/
def GetConfigurationFeatureName : String := "GetConfiguration"
/-- Modelled from the spec: feature-name constant of package `core`. -/
def HeartbeatFeatureName : String := "Heartbeat"
/-- Modelled from the spec: feature-name constant of package `core`. -/
def MeterValuesFeatureName : String := "MeterValues"
/-- Modelled from the spec: feature-name constant of package `core`. -/
def RemoteStartTransactionFeatureName : String := "RemoteStartTransaction"
/-- Modelled from the spec: feature-name constant of package `core`. -/
def RemoteStopTransactionFeatureName : String := "RemoteStopTransaction"
/-- Modelled from the spec: feature-name constant of package `core`. -/
def ResetFeatureName : String := "Reset"
/-- Modelled from the spec: feature-name constant of package `core`. -/
def StartTransactionFeatureName : String := "StartTransaction"
/-- Modelled from the spec: feature-name constant of package `core`. -/
def StopTransactionFeatureName : String := "StopTransaction"
/-- Modelled from the spec: feature-name constant of package `core`. -/
def StatusNotificationFeatureName : String := "StatusNotification"
/-- Modelled from the spec: feature-name constant of package `core`. -/
def UnlockConnectorFeatureName : String := "UnlockConnector"
end core

namespace localauth
/-- Modelled from the spec: profile-name constant of package `localauth` (the spec's tag). -/
def ProfileName : String := "LocalAuth"
/-- Modelled from the spec: feature-name constant of package `localauth`. -/
def GetLocalListVersionFeatureName : String := "GetLocalListVersion"
/-- Modelled from the spec: feature-name constant of package `localauth`. -/
def SendLocalListFeatureName : String := "SendLocalList"
end localauth

namespace firmware
/-- Modelled from the spec: profile-name constant of package `firmware` (the spec's tag). -/
def ProfileName : String := "Firmware"
/-- Modelled from the spec: feature-name constant of package `firmware`. -/
def GetDiagnosticsFeatureName : String := "GetDiagnostics"
/-- Modelled from the spec: feature-name constant of package `firmware`. -/
def UpdateFirmwareFeatureName : String := "UpdateFirmware"
/-- Modelled from the spec: feature-name constant of package `firmware`. -/
def DiagnosticsStatusNotificationFeatureName : String := "DiagnosticsStatusNotification"
/-- Modelled from the spec: feature-name constant of package `firmware`. -/
def FirmwareStatusNotificationFeatureName : String := "FirmwareStatusNotification"
end firmware

namespace reservation
/-- Modelled from the spec: profile-name constant of package `reservation` (the spec's tag). -/
def ProfileName : String := "Reservation"
/-- Modelled from the spec: feature-name constant of package `reservation`. -/
def ReserveNowFeatureName : String := "ReserveNow"
/-- Modelled from the spec: feature-name constant of package `reservation`. -/
def CancelReservationFeatureName : String := "CancelReservation"
end reservation

namespace remotetrigger
/-- Modelled from the spec: profile-name constant of package `remotetrigger` (the spec's tag). -/
def ProfileName : String := "RemoteTrigger"
/-- Modelled from the spec: feature-name constant of package `remotetrigger`. -/
def TriggerMessageFeatureName : String := "TriggerMessage"
end remotetrigger

namespace smartcharging
/-- Modelled from the spec: profile-name constant of package `smartcharging` (the spec's tag). -/
def ProfileName : String := "SmartCharging"
/-- Modelled from the spec: feature-name constant of package `smartcharging`. -/
def SetChargingProfileFeatureName : String := "SetChargingProfile"
/-- Modelled from the spec: feature-name constant of package `smartcharging`. -/
def ClearChargingProfileFeatureName : String := "ClearChargingProfile"
/-- Modelled from the spec: feature-name constant of package `smartcharging`. -/
def GetCompositeScheduleFeatureName : String := "GetCompositeSchedule"
end smartcharging

namespace logging
/-- Modelled from the spec: profile-name constant of package `logging` (the spec's tag). -/
def ProfileName : String := "Logging"
/-- Modelled from the spec: feature-name constant of package `logging`. -/
def GetLogFeatureName : String := "GetLog"
/-- Modelled from the spec: feature-name constant of package `logging`. -/
def LogStatusNotificationFeatureName : String := "LogStatusNotification"
end logging

namespace security
/-- Modelled from the spec: profile-name constant of package `security` (the spec's tag). -/
def ProfileName : String := "Security"
/-- Modelled from the spec: feature-name constant of package `security`. -/
def CertificateSignedFeatureName : String := "CertificateSigned"
/-- Modelled from the spec: feature-name constant of package `security`. -/
def SignCertificateFeatureName : String := "SignCertificate"
/-- Modelled from the spec: feature-name constant of package `security`. -/
def SecurityEventNotificationFeatureName : String := "SecurityEventNotification"
end security

namespace securefirmware
/-- Modelled from the spec: profile-name constant of package `securefirmware` (the spec's tag). -/
def ProfileName : String := "SecureFirmware"
/-- Modelled from the spec: feature-name constant of package `securefirmware`. -/
def SignedUpdateFirmwareFeatureName : String := "SignedUpdateFirmware"
/-- Modelled from the spec: feature-name constant of package `securefirmware`. -/
def SignedFirmwareStatusNotificationFeatureName : String := "SignedFirmwareStatusNotification"
end securefirmware

namespace extendedtriggermessage
/-- Modelled from the spec: profile-name constant of package `extendedtriggermessage` (the spec's
tag). -/
def ProfileName : String := "ExtendedTriggerMessage"
/-- Modelled from the spec: feature-name constant of package `extendedtriggermessage`. -/
def ExtendedTriggerMessageFeatureName : String := "ExtendedTriggerMessage"
end extendedtriggermessage

namespace certificates
/-- Modelled from the spec: profile-name constant of package `certificates` (the spec's tag). -/
def ProfileName : String := "Certificates"
/-- Modelled from the spec: feature-name constant of package `certificates`. -/
def GetInstalledCertificateIdsFeatureName : String := "GetInstalledCertificateIds"
/-- Modelled from the spec: feature-name constant of package `certificates`. -/
def InstallCertificateFeatureName : String := "InstallCertificate"
/-- Modelled from the spec: feature-name constant of package `certificates`. -/
def DeleteCertificateFeatureName : String := "DeleteCertificate"
end certificates

namespace ocppj
/-- Modelled from the spec: error code `NotImplemented` of the closed enumeration `ErrorCode`. -/
def NotImplemented : String := "NotImplemented"
/-- Modelled from the spec: error code `NotSupported` of the closed enumeration `ErrorCode`. -/
def NotSupported : String := "NotSupported"
/-- Modelled from the spec: error code `InternalError` of the closed enumeration `ErrorCode`. -/
def InternalError : String := "InternalError"
/-- Modelled from the spec: error code `GenericError` of the closed enumeration `ErrorCode`. -/
def GenericError : String := "GenericError"
end ocppj

/-! ## Values exchanged with the collaborators -/

/-- An `*ocpp.Error`: an error with a protocol error code and a description. -/
structure OcppError where
  Code : String
  Description : String
  MessageId : String
  deriving DecidableEq, Repr

/-- Modelled from the spec: the method `Error()` of `*ocpp.Error` is declared in package `ocpp`;
the spec fixes no text for it, so the text is built from the three fields. No statement below
depends on its shape. -/
def OcppError.Error (e : OcppError) : String :=
  "ocpp message (" ++ e.MessageId ++ "): " ++ e.Code ++ " - " ++ e.Description

/-- A non-nil Go `error` value: either an `*ocpp.Error` (the only dynamic type that the source
tells apart, by `err.(*ocpp.Error)`) or an error of another type, known by its message. An
error made by `fmt.Errorf` is of the second kind, also when it wraps an `*ocpp.Error`. An
`*ocpp.Error` here always points to an error object: a nil pointer of that type stored in an
`error` is not a value of this type. -/
inductive GoError where
  | ocpp (e : OcppError)
  | plain (msg : String)
  deriving DecidableEq, Repr

/-- The method `Error()` of a Go error. -/
def GoError.Error : GoError → String
  | .ocpp e => e.Error
  | .plain msg => msg

/-- An `ocpp.Request` as far as this file looks at it: `GetFeatureName()` and an uninterpreted
payload. Modelled from the spec for the part outside the source files: the request types are
declared in the feature packages, one per feature, and `GetFeatureName()` of an
`*pkg.XRequest` is `pkg.XFeatureName`; so the dynamic type of a request is known by its
feature name. -/
structure Request where
  featureName : String
  payload : String
  deriving DecidableEq, Repr

/-- The method `GetFeatureName()` of an `ocpp.Request`. -/
def Request.GetFeatureName (r : Request) : String := r.featureName

/-- A confirmation object behind a non-nil pointer: its Go pointer type (such as
`*core.BootNotificationConfirmation`), what `GetFeatureName()` returns, and a payload. -/
structure Confirmation where
  goType : String
  featureName : String
  payload : String
  deriving DecidableEq, Repr

/-- The method `GetFeatureName()` of a confirmation. -/
def Confirmation.GetFeatureName (c : Confirmation) : String := c.featureName

/-- A value of the interface type `ocpp.Response`: the nil interface, a nil pointer of some
pointer type stored in the interface (`typedNil`), or a non-nil pointer to a confirmation. -/
inductive Response where
  | nil
  | typedNil (goType : String)
  | ptr (c : Confirmation)
  deriving DecidableEq, Repr

/-- The conversion of a handler result of pointer type `goType` to the interface type
`ocpp.Response`, as done by the assignment `confirmation, err = cs.xHandler.OnX(...)`: a nil
pointer becomes a typed nil, never the nil interface. -/
def Response.ofPtr (goType : String) : Option Confirmation → Response
  | none => .typedNil goType
  | some c => .ptr c

/-! ## The collaborators: server, handlers, callbacks -/

/-- The part of `*ocppj.Server` that the shell calls. The server is not among the source
files, so each method is a field: what the call returns for given arguments.
`GetProfileForFeature` returns the profile, known here by its `Name`, or `none` for
`found = false`. The send methods return `none` for a nil error. -/
structure Server where
  GetProfileForFeature : String → Option String
  SendRequest : String → Request → Option GoError
  SendResponse : String → String → Confirmation → Option GoError
  SendError : String → String → String → String → Option GoError

/-- An operation of a handler interface: from the charge point id and the request to the pair
`(confirmation, err)`, the confirmation being a pointer (`none` for a nil pointer). -/
abbrev HandlerOp := String → Request → Option Confirmation × Option GoError

namespace core
/-- The operations of `core.CentralSystemHandler` that the shell calls. -/
structure CentralSystemHandler where
  OnAuthorize : HandlerOp
  OnBootNotification : HandlerOp
  OnDataTransfer : HandlerOp
  OnHeartbeat : HandlerOp
  OnMeterValues : HandlerOp
  OnStatusNotification : HandlerOp
  OnStartTransaction : HandlerOp
  OnStopTransaction : HandlerOp
end core

namespace firmware
/-- The operations of `firmware.CentralSystemHandler` that the shell calls. -/
structure CentralSystemHandler where
  OnDiagnosticsStatusNotification : HandlerOp
  OnFirmwareStatusNotification : HandlerOp
end firmware

namespace security
/-- The operations of `security.CentralSystemHandler` that the shell calls. -/
structure CentralSystemHandler where
  OnSecurityEventNotification : HandlerOp
  OnSignCertificate : HandlerOp
end security

namespace logging
/-- The operations of `logging.CentralSystemHandler` that the shell calls. -/
structure CentralSystemHandler where
  OnLogStatusNotification : HandlerOp
end logging

namespace securefirmware
/-- The operations of `securefirmware.CentralSystemHandler` that the shell calls. -/
structure CentralSystemHandler where
  OnSignedFirmwareStatusNotification : HandlerOp
end securefirmware

/-- A handler interface none of whose operations the shell calls (`localauth`, `reservation`,
`remotetrigger`, `smartcharging`): only its being nil or not is observed. -/
structure EmptyHandler where
  deriving DecidableEq, Repr

/-- The typed action methods of the shell, one constructor per method, in source order. -/
inductive TypedAction where
  | ChangeAvailability
  | ChangeConfiguration
  | ClearCache
  | DataTransfer
  | GetConfiguration
  | RemoteStartTransaction
  | RemoteStopTransaction
  | Reset
  | UnlockConnector
  | GetLocalListVersion
  | SendLocalList
  | GetDiagnostics
  | UpdateFirmware
  | ReserveNow
  | CancelReservation
  | TriggerMessage
  | SetChargingProfile
  | ClearChargingProfile
  | GetCompositeSchedule
  | TriggerMessageExtended
  | CertificateSigned
  | SignedUpdateFirmware
  | GetInstalledCertificateIds
  | InstallCertificate
  | DeleteCertificate
  | GetLog
  deriving DecidableEq, Repr

/-- A generic callback `func(confirmation ocpp.Response, err error)` held by the callback
queue: either a function supplied by the caller of `SendRequestAsync` (known by an
identifier), or the closure `genericCallback` that a typed action method builds around the
caller's typed callback `id`. -/
inductive Callback where
  | generic (id : Nat)
  | typed (action : TypedAction) (id : Nat)
  deriving DecidableEq, Repr

/-- The observable effects, in program order. `error` is a call of `cs.error(err)`;
`handler` is a call of a handler operation; `callback` is a call of a generic callback;
`typedCallback` is a call of the typed callback of a typed action method, with the pointer
it receives (`none` for nil); `disconnectedHandler` is a call of the handler that the owner
gave to `SetChargePointDisconnectedHandler`. -/
inductive Event where
  | TryQueue (clientId : String) (request : Request) (callback : Callback)
  | SendRequest (clientId : String) (request : Request)
  | SendResponse (clientId requestId : String) (confirmation : Confirmation)
  | SendError (clientId requestId code description : String)
  | HandleFailedResponseError (clientId requestId : String) (err : GoError) (featureName : String)
  | handler (operation clientId : String) (request : Request)
  | callback (cb : Callback) (confirmation : Response) (err : Option GoError)
  | typedCallback (id : Nat) (confirmation : Option Confirmation) (err : Option GoError)
  | error (err : GoError)
  | disconnectedHandler (chargePoint : String)
  deriving DecidableEq, Repr

/-! ## The callback queue -/

/-- Modelled from the spec: an entry of a peer's queue (`QueuedEntry`): the sender and the
callback. The only sender the shell makes is the closure
`func() error { return cs.server.SendRequest(clientId, request) }`, known by the request it
captures. -/
structure QueuedEntry where
  request : Request
  callback : Callback
  deriving DecidableEq, Repr

/-- Modelled from the spec: the state of one peer in package `internal/callbackqueue`, which is
not among the source files (`PerPeerQueue`): at most one pending call, known by its callback,
and the ordered sequence of queued entries. -/
structure PerPeerQueue where
  pending : Option Callback
  queued : List QueuedEntry
  deriving DecidableEq, Repr

/-- Modelled from the spec: `callbackqueue.CallbackQueue`, the map from peer id to the peer's
queue; a peer without an entry has the empty queue. -/
abbrev CallbackQueue := String → PerPeerQueue

/-- Modelled from the spec: `callbackqueue.New()`. -/
def CallbackQueue.New : CallbackQueue := fun _ => ⟨none, []⟩

/-- Modelled from the spec: `TryQueue(peer_id, sender, callback)` of package
`internal/callbackqueue`. "Append `(sender, callback)`. If no pending call exists, invoke
`sender` synchronously under the queue lock; on success, promote this entry to pending. On
`sender` failure, pop this entry and fail the call with the sender's error". While a call is
pending the entry stays queued and the call succeeds. Returns the queue, the effects and the
returned error. -/
def CallbackQueue.TryQueue (q : CallbackQueue) (server : Server) (id : String)
    (request : Request) (callback : Callback) : CallbackQueue × List Event × Option GoError :=
  match (q id).pending with
  | some _ =>
    (Function.update q id { q id with queued := (q id).queued ++ [⟨request, callback⟩] }, [], none)
  | none =>
    match server.SendRequest id request with
    | none =>
      (Function.update q id { q id with pending := some callback }, [.SendRequest id request], none)
    | some err => (q, [.SendRequest id request], some err)

/-- Modelled from the spec: `Dequeue(peer_id) -> (callback, ok)` of package
`internal/callbackqueue`. "If there is a pending call for `peer_id`, remove and return its
callback; immediately promote the next queued entry (if any) by invoking its sender. Returns
`(none, false)` if no pending call exists". The words do not make the promotion depend on
what the sender returns, so the call of the sender is recorded and the entry becomes the
pending call. Returns the queue, the effects and the callback (`none` for `ok = false`). -/
def CallbackQueue.Dequeue (q : CallbackQueue) (id : String) :
    CallbackQueue × List Event × Option Callback :=
  match (q id).pending with
  | none => (q, [], none)
  | some cb =>
    match (q id).queued with
    | [] => (Function.update q id ⟨none, []⟩, [], some cb)
    | e :: rest =>
      (Function.update q id ⟨some e.callback, rest⟩, [.SendRequest id e.request], some cb)

/-- Modelled from the spec: the callbacks held for a peer, "pending + all queued callbacks in
FIFO order". -/
def CallbackQueue.held (q : CallbackQueue) (id : String) : List Callback :=
  (q id).pending.toList ++ (q id).queued.map QueuedEntry.callback

/-- Modelled from the spec: the invariant of a peer's queue that entries wait only behind a
pending call ("if no pending call exists, invoke `sender`": an entry is queued only while a
call is pending, and `Dequeue` promotes the next entry at once). -/
def CallbackQueue.wellFormed (q : CallbackQueue) (id : String) : Prop :=
  (q id).pending = none → (q id).queued = []

/-! ## The central system -/

/-- The struct `centralSystem`. A handler field is `none` for a nil interface. The errors
channel `errC` is `none` for a nil channel and otherwise the buffered content of a channel
made by `make(chan error, 1)`. -/
structure CentralSystem where
  server : Server
  coreHandler : Option core.CentralSystemHandler
  localAuthListHandler : Option EmptyHandler
  firmwareHandler : Option firmware.CentralSystemHandler
  reservationHandler : Option EmptyHandler
  remoteTriggerHandler : Option EmptyHandler
  smartChargingHandler : Option EmptyHandler
  logHandler : Option logging.CentralSystemHandler
  securityHandler : Option security.CentralSystemHandler
  secureFirmwareHandler : Option securefirmware.CentralSystemHandler
  callbackQueue : CallbackQueue
  errC : Option (List GoError)

/-- The function `newCentralSystem`, for a non-nil server: no handler, a fresh callback queue,
no errors channel. -/
def newCentralSystem (server : Server) : CentralSystem :=
  { server := server, coreHandler := none, localAuthListHandler := none, firmwareHandler := none,
    reservationHandler := none, remoteTriggerHandler := none, smartChargingHandler := none,
    logHandler := none, securityHandler := none, secureFirmwareHandler := none,
    callbackQueue := CallbackQueue.New, errC := none }

/-- How a run ends: it returns, it panics, or it blocks sending into the full errors
channel. -/
inductive Status where
  | returned
  | panicked
  | blocked
  deriving DecidableEq, Repr

/-- The outcome of running a method: the central system afterwards, the effects in program
order, and how the run ended. -/
structure Run where
  cs : CentralSystem
  trace : List Event
  status : Status

/-- The run `r` preceded by the effects `pre`. -/
def Run.after (pre : List Event) (r : Run) : Run := { r with trace := pre ++ r.trace }

/-- The capacity of the errors channel: `make(chan error, 1)` in `Errors`. -/
def errCCapacity : Nat := 1

/-- The method `centralSystem.error`: nothing on a nil channel; otherwise the channel send
`cs.errC <- err`, which stores the error when the buffer has room and blocks when it is
full. -/
def CentralSystem.error (cs : CentralSystem) (err : GoError) : Run :=
  match cs.errC with
  | none => ⟨cs, [.error err], .returned⟩
  | some buf =>
    if buf.length < errCCapacity then
      ⟨{ cs with errC := some (buf ++ [err]) }, [.error err], .returned⟩
    else ⟨cs, [.error err], .blocked⟩

/-- The method `centralSystem.Errors`: makes the channel on first use. -/
def CentralSystem.Errors (cs : CentralSystem) : CentralSystem :=
  match cs.errC with
  | none => { cs with errC := some [] }
  | some _ => cs

/-! ## Outbound: `SendRequestAsync` and the typed action methods -/

/-- The case list of the switch on `featureName` in `SendRequestAsync`, in source order. -/
def sendableFeatureNames : List String :=
  [core.ChangeAvailabilityFeatureName, core.ChangeConfigurationFeatureName,
   core.ClearCacheFeatureName, core.DataTransferFeatureName, core.GetConfigurationFeatureName,
   core.RemoteStartTransactionFeatureName, core.RemoteStopTransactionFeatureName,
   core.ResetFeatureName, core.UnlockConnectorFeatureName,
   localauth.GetLocalListVersionFeatureName, localauth.SendLocalListFeatureName,
   firmware.GetDiagnosticsFeatureName, firmware.UpdateFirmwareFeatureName,
   reservation.ReserveNowFeatureName, reservation.CancelReservationFeatureName,
   remotetrigger.TriggerMessageFeatureName,
   smartcharging.SetChargingProfileFeatureName, smartcharging.ClearChargingProfileFeatureName,
   smartcharging.GetCompositeScheduleFeatureName,
   security.CertificateSignedFeatureName,
   securefirmware.SignedUpdateFirmwareFeatureName,
   logging.GetLogFeatureName,
   extendedtriggermessage.ExtendedTriggerMessageFeatureName,
   certificates.GetInstalledCertificateIdsFeatureName, certificates.DeleteCertificateFeatureName,
   certificates.InstallCertificateFeatureName]

/-- The error of `SendRequestAsync` for a feature without a registered profile. -/
def missingProfileError (featureName : String) : GoError :=
  .plain ("feature " ++ featureName ++
    " is unsupported on central system (missing profile), cannot send request")

/-- The error of `SendRequestAsync` for a feature outside the case list of its switch. -/
def unsupportedActionError (featureName : String) : GoError :=
  .plain ("unsupported action " ++ featureName ++ " on central system, cannot send request")

/-- The method `centralSystem.SendRequestAsync`: the profile lookup, the switch on the feature
name, then `cs.callbackQueue.TryQueue(clientId, send, callback)` with
`send = func() error { return cs.server.SendRequest(clientId, request) }`. Returns the run and
the returned error. -/
def SendRequestAsync (cs : CentralSystem) (clientId : String) (request : Request)
    (callback : Callback) : Run × Option GoError :=
  let featureName := request.GetFeatureName
  match cs.server.GetProfileForFeature featureName with
  | none => (⟨cs, [], .returned⟩, some (missingProfileError featureName))
  | some _ =>
    if featureName ∈ sendableFeatureNames then
      let r := cs.callbackQueue.TryQueue cs.server clientId request callback
      (⟨{ cs with callbackQueue := r.1 }, .TryQueue clientId request callback :: r.2.1, .returned⟩,
        r.2.2)
    else (⟨cs, [], .returned⟩, some (unsupportedActionError featureName))

/-- The feature of which the method is the typed action: the one its name and the response
type of its typed callback belong to (`TriggerMessageExtended` takes an
`*extendedtriggermessage.ExtendedTriggerMessageResponse`, `CertificateSigned` a
`*security.CertificateSignedResponse`). -/
def TypedAction.featureName : TypedAction → String
  | .ChangeAvailability => core.ChangeAvailabilityFeatureName
  | .ChangeConfiguration => core.ChangeConfigurationFeatureName
  | .ClearCache => core.ClearCacheFeatureName
  | .DataTransfer => core.DataTransferFeatureName
  | .GetConfiguration => core.GetConfigurationFeatureName
  | .RemoteStartTransaction => core.RemoteStartTransactionFeatureName
  | .RemoteStopTransaction => core.RemoteStopTransactionFeatureName
  | .Reset => core.ResetFeatureName
  | .UnlockConnector => core.UnlockConnectorFeatureName
  | .GetLocalListVersion => localauth.GetLocalListVersionFeatureName
  | .SendLocalList => localauth.SendLocalListFeatureName
  | .GetDiagnostics => firmware.GetDiagnosticsFeatureName
  | .UpdateFirmware => firmware.UpdateFirmwareFeatureName
  | .ReserveNow => reservation.ReserveNowFeatureName
  | .CancelReservation => reservation.CancelReservationFeatureName
  | .TriggerMessage => remotetrigger.TriggerMessageFeatureName
  | .SetChargingProfile => smartcharging.SetChargingProfileFeatureName
  | .ClearChargingProfile => smartcharging.ClearChargingProfileFeatureName
  | .GetCompositeSchedule => smartcharging.GetCompositeScheduleFeatureName
  | .TriggerMessageExtended => extendedtriggermessage.ExtendedTriggerMessageFeatureName
  | .CertificateSigned => security.CertificateSignedFeatureName
  | .SignedUpdateFirmware => securefirmware.SignedUpdateFirmwareFeatureName
  | .GetInstalledCertificateIds => certificates.GetInstalledCertificateIdsFeatureName
  | .InstallCertificate => certificates.InstallCertificateFeatureName
  | .DeleteCertificate => certificates.DeleteCertificateFeatureName
  | .GetLog => logging.GetLogFeatureName

/-- The feature name of the request that the method builds in its first statement
(`request := pkg.NewXRequest(...)`). Modelled from the spec for the part outside the source
files: `GetFeatureName()` of an `*pkg.XRequest` is `pkg.XFeatureName`. `CertificateSigned`
calls `security.NewSignCertificateRequest(csr)`. The mutators `props` patch fields of the
request and leave its type alone. -/
def TypedAction.requestFeatureName : TypedAction → String
  | .ChangeAvailability => core.ChangeAvailabilityFeatureName
  | .ChangeConfiguration => core.ChangeConfigurationFeatureName
  | .ClearCache => core.ClearCacheFeatureName
  | .DataTransfer => core.DataTransferFeatureName
  | .GetConfiguration => core.GetConfigurationFeatureName
  | .RemoteStartTransaction => core.RemoteStartTransactionFeatureName
  | .RemoteStopTransaction => core.RemoteStopTransactionFeatureName
  | .Reset => core.ResetFeatureName
  | .UnlockConnector => core.UnlockConnectorFeatureName
  | .GetLocalListVersion => localauth.GetLocalListVersionFeatureName
  | .SendLocalList => localauth.SendLocalListFeatureName
  | .GetDiagnostics => firmware.GetDiagnosticsFeatureName
  | .UpdateFirmware => firmware.UpdateFirmwareFeatureName
  | .ReserveNow => reservation.ReserveNowFeatureName
  | .CancelReservation => reservation.CancelReservationFeatureName
  | .TriggerMessage => remotetrigger.TriggerMessageFeatureName
  | .SetChargingProfile => smartcharging.SetChargingProfileFeatureName
  | .ClearChargingProfile => smartcharging.ClearChargingProfileFeatureName
  | .GetCompositeSchedule => smartcharging.GetCompositeScheduleFeatureName
  | .TriggerMessageExtended => extendedtriggermessage.ExtendedTriggerMessageFeatureName
  | .CertificateSigned => security.SignCertificateFeatureName
  | .SignedUpdateFirmware => securefirmware.SignedUpdateFirmwareFeatureName
  | .GetInstalledCertificateIds => certificates.GetInstalledCertificateIdsFeatureName
  | .InstallCertificate => certificates.InstallCertificateFeatureName
  | .DeleteCertificate => certificates.DeleteCertificateFeatureName
  | .GetLog => logging.GetLogFeatureName

/-- The pointer type that the generic callback of the method asserts
(`confirmation.(*pkg.XConfirmation)`), which is the type of the typed callback's first
argument. -/
def TypedAction.confirmationType : TypedAction → String
  | .ChangeAvailability => "*core.ChangeAvailabilityConfirmation"
  | .ChangeConfiguration => "*core.ChangeConfigurationConfirmation"
  | .ClearCache => "*core.ClearCacheConfirmation"
  | .DataTransfer => "*core.DataTransferConfirmation"
  | .GetConfiguration => "*core.GetConfigurationConfirmation"
  | .RemoteStartTransaction => "*core.RemoteStartTransactionConfirmation"
  | .RemoteStopTransaction => "*core.RemoteStopTransactionConfirmation"
  | .Reset => "*core.ResetConfirmation"
  | .UnlockConnector => "*core.UnlockConnectorConfirmation"
  | .GetLocalListVersion => "*localauth.GetLocalListVersionConfirmation"
  | .SendLocalList => "*localauth.SendLocalListConfirmation"
  | .GetDiagnostics => "*firmware.GetDiagnosticsConfirmation"
  | .UpdateFirmware => "*firmware.UpdateFirmwareConfirmation"
  | .ReserveNow => "*reservation.ReserveNowConfirmation"
  | .CancelReservation => "*reservation.CancelReservationConfirmation"
  | .TriggerMessage => "*remotetrigger.TriggerMessageConfirmation"
  | .SetChargingProfile => "*smartcharging.SetChargingProfileConfirmation"
  | .ClearChargingProfile => "*smartcharging.ClearChargingProfileConfirmation"
  | .GetCompositeSchedule => "*smartcharging.GetCompositeScheduleConfirmation"
  | .TriggerMessageExtended => "*extendedtriggermessage.ExtendedTriggerMessageResponse"
  | .CertificateSigned => "*security.CertificateSignedResponse"
  | .SignedUpdateFirmware => "*securefirmware.SignedUpdateFirmwareResponse"
  | .GetInstalledCertificateIds => "*certificates.GetInstalledCertificateIdsResponse"
  | .InstallCertificate => "*certificates.InstallCertificateResponse"
  | .DeleteCertificate => "*certificates.DeleteCertificateResponse"
  | .GetLog => "*logging.GetLogResponse"

/-- Whether the generic callback of the method tests `confirmation != nil` before the type
assertion (`ChangeAvailability` to `GetCompositeSchedule`) or asserts the type at once
(`TriggerMessageExtended` to `GetLog`). -/
def TypedAction.nilGuard : TypedAction → Bool
  | .TriggerMessageExtended => false
  | .CertificateSigned => false
  | .SignedUpdateFirmware => false
  | .GetInstalledCertificateIds => false
  | .InstallCertificate => false
  | .DeleteCertificate => false
  | .GetLog => false
  | _ => true

/-- The Go type assertion `confirmation.(T)` for a pointer type `T`, in its one-result form:
`none` is the run-time panic (nil interface, or another dynamic type), `some p` the
pointer obtained (`some none` for a typed nil of type `T`). -/
def typeAssert (goType : String) : Response → Option (Option Confirmation)
  | .nil => none
  | .typedNil t => if t = goType then some none else none
  | .ptr c => if c.goType = goType then some (some c) else none

/-- The closure `genericCallback` of the typed action method `a`, built around the caller's
typed callback `id`, run on `(confirmation, protoError)`: the calls of the typed callback
and how the closure ends. -/
def genericCallback (a : TypedAction) (id : Nat) (confirmation : Response)
    (protoError : Option GoError) : List Event × Status :=
  if a.nilGuard then
    if confirmation ≠ .nil then
      match typeAssert a.confirmationType confirmation with
      | some p => ([.typedCallback id p protoError], .returned)
      | none => ([], .panicked)
    else ([.typedCallback id none protoError], .returned)
  else
    match typeAssert a.confirmationType confirmation with
    | some confirmationCasted => ([.typedCallback id confirmationCasted protoError], .returned)
    | none => ([], .panicked)

/-- A typed action method of the shell, such as `centralSystem.ChangeAvailability`: builds
the request (of payload `payload` after the mutators), wraps the typed callback `callback`
and returns `cs.SendRequestAsync(clientId, request, genericCallback)`. -/
def TypedAction.call (a : TypedAction) (cs : CentralSystem) (clientId : String) (callback : Nat)
    (payload : String) : Run × Option GoError :=
  SendRequestAsync cs clientId ⟨a.requestFeatureName, payload⟩ (.typed a callback)

/-- The call of a generic callback held by the queue: a caller-supplied one is recorded, a
typed action's closure is run. -/
def Callback.invoke (cb : Callback) (confirmation : Response) (err : Option GoError) :
    List Event × Status :=
  match cb with
  | .generic _ => ([.callback cb confirmation err], .returned)
  | .typed a id =>
    let r := genericCallback a id confirmation err
    (.callback cb confirmation err :: r.1, r.2)

/-! ## Inbound: replies and dispatch -/

/-- The method `centralSystem.sendResponse`. -/
def sendResponse (cs : CentralSystem) (chargePointId : String) (confirmation : Response)
    (err : Option GoError) (requestId : String) : Run :=
  match err with
  | some e =>
    let sent : String × String :=
      match e with
      | .ocpp ocppError => (ocppError.Code, ocppError.Description)
      | .plain msg => (ocppj.InternalError, msg)
    match cs.server.SendError chargePointId requestId sent.1 sent.2 with
    | some err2 =>
      Run.after
        [.SendError chargePointId requestId sent.1 sent.2,
         .HandleFailedResponseError chargePointId requestId err2 ""]
        (cs.error (.plain ("error replying cp " ++ chargePointId ++ " to request " ++
          requestId ++ " with \x27internal error\x27: " ++ err2.Error)))
    | none => ⟨cs, [.SendError chargePointId requestId sent.1 sent.2], .returned⟩
  | none =>
    match confirmation with
    | .ptr c =>
      match cs.server.SendResponse chargePointId requestId c with
      | some err2 =>
        Run.after
          [.SendResponse chargePointId requestId c,
           .HandleFailedResponseError chargePointId requestId err2 c.GetFeatureName]
          (cs.error (.plain ("error replying cp " ++ chargePointId ++ " to request " ++
            requestId ++ ": " ++ err2.Error)))
      | none => ⟨cs, [.SendResponse chargePointId requestId c], .returned⟩
    | _ =>
      let msg := "empty confirmation to " ++ chargePointId ++ " for request " ++ requestId
      Run.after [.SendError chargePointId requestId ocppj.GenericError msg]
        (cs.error (.plain msg))

/-- The method `centralSystem.notImplementedError`. -/
def notImplementedError (cs : CentralSystem) (chargePointId requestId action : String) : Run :=
  let description := "no handler for action " ++ action ++ " implemented"
  match cs.server.SendError chargePointId requestId ocppj.NotImplemented description with
  | some err =>
    Run.after [.SendError chargePointId requestId ocppj.NotImplemented description]
      (cs.error (.plain ("replying cp " ++ chargePointId ++ " to request " ++ requestId ++
        " with \x27not implemented\x27: " ++ err.Error)))
  | none => ⟨cs, [.SendError chargePointId requestId ocppj.NotImplemented description], .returned⟩

/-- The method `centralSystem.notSupportedError`. -/
def notSupportedError (cs : CentralSystem) (chargePointId requestId action : String) : Run :=
  let description := "unsupported action " ++ action ++ " on central system"
  match cs.server.SendError chargePointId requestId ocppj.NotSupported description with
  | some err =>
    Run.after [.SendError chargePointId requestId ocppj.NotSupported description]
      (cs.error (.plain ("replying cp " ++ chargePointId ++ " to request " ++ requestId ++
        " with \x27not supported\x27: " ++ err.Error)))
  | none => ⟨cs, [.SendError chargePointId requestId ocppj.NotSupported description], .returned⟩

/-- The first switch of `handleIncomingRequest`, on `profile.Name`: whether the case of the
profile finds its handler field nil. A profile name without a case passes. -/
def handlerMissing (cs : CentralSystem) (profileName : String) : Bool :=
  if profileName = core.ProfileName then cs.coreHandler.isNone
  else if profileName = localauth.ProfileName then cs.localAuthListHandler.isNone
  else if profileName = firmware.ProfileName then cs.firmwareHandler.isNone
  else if profileName = reservation.ProfileName then cs.reservationHandler.isNone
  else if profileName = remotetrigger.ProfileName then cs.remoteTriggerHandler.isNone
  else if profileName = smartcharging.ProfileName then cs.smartChargingHandler.isNone
  else if profileName = logging.ProfileName then cs.logHandler.isNone
  else if profileName = security.ProfileName then cs.securityHandler.isNone
  else if profileName = securefirmware.ProfileName then cs.secureFirmwareHandler.isNone
  else false

/-- What the second switch of `handleIncomingRequest`, on `action`, comes to: a handler
operation was called and returned `(confirmation, err)`; the handler field of the case was
nil, so the call panicked; the request was not of the type that the case asserts, so the
type assertion panicked; or the `default` case was taken. -/
inductive Dispatched where
  | result (operation : String) (confirmation : Response) (err : Option GoError)
  | nilHandler
  | typeAssertionFailed
  | unsupported

/-- The call `cs.xHandler.OnX(chargePoint.ID(), request.(*pkg.XRequest))` and the assignment of
its results to `confirmation ocpp.Response` and `err`. `goType` is the pointer type of the
operation's first result; `requestType` is the feature name of the request type asserted by
`request.(*pkg.XRequest)`. The call panics when the handler field is a nil interface and
when the request is of another type than the one asserted (the assertion is of the
one-result form); neither panic has an effect before it, and a nil handler is reported
first. -/
def callHandler {H : Type} (handler : Option H) (op : H → HandlerOp)
    (operation goType requestType : String) (chargePointId : String) (request : Request) :
    Dispatched :=
  match handler with
  | none => .nilHandler
  | some h =>
    if request.GetFeatureName = requestType then
      .result operation (Response.ofPtr goType (op h chargePointId request).1)
        (op h chargePointId request).2
    else .typeAssertionFailed

/-- The second switch of `handleIncomingRequest`, on `action`, in source order. -/
def dispatch (cs : CentralSystem) (chargePointId : String) (request : Request)
    (action : String) : Dispatched :=
  if action = core.BootNotificationFeatureName then
    callHandler cs.coreHandler core.CentralSystemHandler.OnBootNotification
      "OnBootNotification" "*core.BootNotificationConfirmation"
      core.BootNotificationFeatureName chargePointId request
  else if action = core.AuthorizeFeatureName then
    callHandler cs.coreHandler core.CentralSystemHandler.OnAuthorize
      "OnAuthorize" "*core.AuthorizeConfirmation"
      core.AuthorizeFeatureName chargePointId request
  else if action = core.DataTransferFeatureName then
    callHandler cs.coreHandler core.CentralSystemHandler.OnDataTransfer
      "OnDataTransfer" "*core.DataTransferConfirmation"
      core.DataTransferFeatureName chargePointId request
  else if action = core.HeartbeatFeatureName then
    callHandler cs.coreHandler core.CentralSystemHandler.OnHeartbeat
      "OnHeartbeat" "*core.HeartbeatConfirmation"
      core.HeartbeatFeatureName chargePointId request
  else if action = core.MeterValuesFeatureName then
    callHandler cs.coreHandler core.CentralSystemHandler.OnMeterValues
      "OnMeterValues" "*core.MeterValuesConfirmation"
      core.MeterValuesFeatureName chargePointId request
  else if action = core.StartTransactionFeatureName then
    callHandler cs.coreHandler core.CentralSystemHandler.OnStartTransaction
      "OnStartTransaction" "*core.StartTransactionConfirmation"
      core.StartTransactionFeatureName chargePointId request
  else if action = core.StopTransactionFeatureName then
    callHandler cs.coreHandler core.CentralSystemHandler.OnStopTransaction
      "OnStopTransaction" "*core.StopTransactionConfirmation"
      core.StopTransactionFeatureName chargePointId request
  else if action = core.StatusNotificationFeatureName then
    callHandler cs.coreHandler core.CentralSystemHandler.OnStatusNotification
      "OnStatusNotification" "*core.StatusNotificationConfirmation"
      core.StatusNotificationFeatureName chargePointId request
  else if action = firmware.DiagnosticsStatusNotificationFeatureName then
    callHandler cs.firmwareHandler firmware.CentralSystemHandler.OnDiagnosticsStatusNotification
      "OnDiagnosticsStatusNotification" "*firmware.DiagnosticsStatusNotificationConfirmation"
      firmware.DiagnosticsStatusNotificationFeatureName chargePointId request
  else if action = firmware.FirmwareStatusNotificationFeatureName then
    callHandler cs.firmwareHandler firmware.CentralSystemHandler.OnFirmwareStatusNotification
      "OnFirmwareStatusNotification" "*firmware.FirmwareStatusNotificationConfirmation"
      firmware.FirmwareStatusNotificationFeatureName chargePointId request
  else if action = security.SignCertificateFeatureName then
    callHandler cs.securityHandler security.CentralSystemHandler.OnSignCertificate
      "OnSignCertificate" "*security.SignCertificateResponse"
      security.SignCertificateFeatureName chargePointId request
  else if action = security.SecurityEventNotificationFeatureName then
    callHandler cs.securityHandler security.CentralSystemHandler.OnSecurityEventNotification
      "OnSecurityEventNotification" "*security.SecurityEventNotificationResponse"
      security.SecurityEventNotificationFeatureName chargePointId request
  else if action = logging.LogStatusNotificationFeatureName then
    callHandler cs.logHandler logging.CentralSystemHandler.OnLogStatusNotification
      "OnLogStatusNotification" "*logging.LogStatusNotificationResponse"
      logging.LogStatusNotificationFeatureName chargePointId request
  else if action = securefirmware.SignedFirmwareStatusNotificationFeatureName then
    callHandler cs.secureFirmwareHandler
      securefirmware.CentralSystemHandler.OnSignedFirmwareStatusNotification
      "OnSignedFirmwareStatusNotification"
      "*securefirmware.SignedFirmwareStatusNotificationResponse"
      securefirmware.SignedFirmwareStatusNotificationFeatureName chargePointId request
  else .unsupported

/-- The method `centralSystem.handleIncomingRequest`; `chargePoint` is `chargePoint.ID()`. The
body of the goroutine is run in line. -/
def handleIncomingRequest (cs : CentralSystem) (chargePoint : String) (request : Request)
    (requestId action : String) : Run :=
  match cs.server.GetProfileForFeature action with
  | none => notImplementedError cs chargePoint requestId action
  | some profileName =>
    if handlerMissing cs profileName then notSupportedError cs chargePoint requestId action
    else
      match dispatch cs chargePoint request action with
      | .result operation confirmation err =>
        Run.after [.handler operation chargePoint request]
          (sendResponse cs chargePoint confirmation err requestId)
      | .nilHandler => ⟨cs, [], .panicked⟩
      | .typeAssertionFailed => ⟨cs, [], .panicked⟩
      | .unsupported => notSupportedError cs chargePoint requestId action

/-! ## Inbound: disconnect and confirmations -/

/-- The error that the disconnect closure makes for each callback:
`ocpp.NewError(ocppj.GenericError, "client disconnected, no response received from client", "")`. -/
def disconnectError : GoError :=
  .ocpp ⟨ocppj.GenericError, "client disconnected, no response received from client", ""⟩

/-- The loop of the closure installed by `SetChargePointDisconnectedHandler`:
`for cb, ok := cs.callbackQueue.Dequeue(id); ok; cb, ok = cs.callbackQueue.Dequeue(id)` with
the body `cb(nil, err)`. A panic of the callback ends the run. The loop ends because each
successful `Dequeue` leaves the peer one callback less. -/
def drainCallbacks (cs : CentralSystem) (chargePoint : String) : Run :=
  match _hok : (cs.callbackQueue.Dequeue chargePoint).2.2 with
  | none =>
    ⟨{ cs with callbackQueue := (cs.callbackQueue.Dequeue chargePoint).1 },
      (cs.callbackQueue.Dequeue chargePoint).2.1, .returned⟩
  | some cb =>
    match (cb.invoke .nil (some disconnectError)).2 with
    | .returned =>
      Run.after
        ((cs.callbackQueue.Dequeue chargePoint).2.1 ++ (cb.invoke .nil (some disconnectError)).1)
        (drainCallbacks { cs with callbackQueue := (cs.callbackQueue.Dequeue chargePoint).1 }
          chargePoint)
    | status =>
      ⟨{ cs with callbackQueue := (cs.callbackQueue.Dequeue chargePoint).1 },
        (cs.callbackQueue.Dequeue chargePoint).2.1 ++ (cb.invoke .nil (some disconnectError)).1,
        status⟩
termination_by (cs.callbackQueue.held chargePoint).length
decreasing_by
  simp only [CallbackQueue.Dequeue, CallbackQueue.held] at _hok ⊢
  cases hp : (cs.callbackQueue chargePoint).pending with
  | none => simp [hp] at _hok
  | some c =>
    cases hq : (cs.callbackQueue chargePoint).queued with
    | nil => simp [hp, hq]
    | cons e rest => simp [hp, hq]

/-- The closure that `SetChargePointDisconnectedHandler(handler)` installs with
`cs.server.SetDisconnectedClientHandler`, run for the charge point `chargePoint.ID()`: the
loop over the callbacks, then `handler(chargePoint)`. -/
def disconnectedClientHandler (cs : CentralSystem) (chargePoint : String) : Run :=
  match (drainCallbacks cs chargePoint).status with
  | .returned =>
    ⟨(drainCallbacks cs chargePoint).cs,
      (drainCallbacks cs chargePoint).trace ++ [.disconnectedHandler chargePoint], .returned⟩
  | _ => drainCallbacks cs chargePoint

/-- The method `centralSystem.handleIncomingConfirmation`; `chargePoint` is `chargePoint.ID()`.
The goroutine `go callback(confirmation, nil)` is run in line. In the other branch
`confirmation.GetFeatureName()` needs a confirmation object: on a nil confirmation it
panics. -/
def handleIncomingConfirmation (cs : CentralSystem) (chargePoint : String)
    (confirmation : Response) (requestId : String) : Run :=
  match (cs.callbackQueue.Dequeue chargePoint).2.2 with
  | some callback =>
    ⟨{ cs with callbackQueue := (cs.callbackQueue.Dequeue chargePoint).1 },
      (cs.callbackQueue.Dequeue chargePoint).2.1 ++ (callback.invoke confirmation none).1,
      (callback.invoke confirmation none).2⟩
  | none =>
    match confirmation with
    | .ptr c =>
      Run.after (cs.callbackQueue.Dequeue chargePoint).2.1
        (({ cs with callbackQueue := (cs.callbackQueue.Dequeue chargePoint).1 }).error
          (.plain ("no handler available for call of type " ++ c.GetFeatureName ++
            " from client " ++ chargePoint ++ " for request " ++ requestId)))
    | _ =>
      ⟨{ cs with callbackQueue := (cs.callbackQueue.Dequeue chargePoint).1 },
        (cs.callbackQueue.Dequeue chargePoint).2.1, .panicked⟩

/-! ## Reading a trace -/

/-- An outbound reply frame: a call of `SendResponse` (CALLRESULT) or of `SendError`
(CALLERROR). -/
def Event.isReply : Event → Bool
  | .SendResponse _ _ _ => true
  | .SendError _ _ _ _ => true
  | _ => false

/-- A call of a handler operation. -/
def Event.isHandlerCall : Event → Bool
  | .handler _ _ _ => true
  | _ => false

/-- A call of `server.HandleFailedResponseError`. -/
def Event.isFallback : Event → Bool
  | .HandleFailedResponseError _ _ _ _ => true
  | _ => false

/-- The reply frames of a run, in order. -/
def Run.replies (r : Run) : List Event := r.trace.filter Event.isReply

/-- The handler calls of a run, in order. -/
def Run.handlerCalls (r : Run) : List Event := r.trace.filter Event.isHandlerCall

/-- The errors handed to `cs.error` during a run, in order. -/
def Run.reported (r : Run) : List GoError :=
  r.trace.filterMap fun ev => match ev with
    | .error err => some err
    | _ => none

/-! ## The spec's role matrix -/

/-- The features that the spec lists as "CentralSystem→ChargePoint only", in the spec's
order. -/
def specCentralSystemToChargePointOnly : List String :=
  ["ChangeAvailability", "ChangeConfiguration", "ClearCache", "GetConfiguration",
   "RemoteStartTransaction", "RemoteStopTransaction", "Reset", "UnlockConnector",
   "GetLocalListVersion", "SendLocalList", "GetDiagnostics", "UpdateFirmware", "ReserveNow",
   "CancelReservation", "TriggerMessage", "SetChargingProfile", "ClearChargingProfile",
   "GetCompositeSchedule", "ExtendedTriggerMessage", "CertificateSigned",
   "SignedUpdateFirmware", "GetLog", "GetInstalledCertificateIds", "InstallCertificate",
   "DeleteCertificate"]

/-- The features that the spec permits a central system to send: the
"CentralSystem→ChargePoint only" ones and the one of "Both directions". -/
def specPermittedToSend (featureName : String) : Prop :=
  featureName ∈ specCentralSystemToChargePointOnly ∨ featureName = "DataTransfer"

instance (featureName : String) : Decidable (specPermittedToSend featureName) := by
  unfold specPermittedToSend; infer_instance

/-- The direction check of `SendRequestAsync` refused the request: the call returned the
"unsupported action ... on central system" error, before any effect. -/
def refusedByDirectionCheck (cs : CentralSystem) (clientId : String) (request : Request)
    (callback : Callback) : Prop :=
  (SendRequestAsync cs clientId request callback).2
      = some (unsupportedActionError request.GetFeatureName) ∧
    (SendRequestAsync cs clientId request callback).1.trace = []

/-! ## Fixtures for the concrete evaluations -/

/-- A confirmation that the example handlers return. -/
def exampleConfirmation : Confirmation :=
  ⟨"*core.HeartbeatConfirmation", "Heartbeat", "now"⟩

/-- A core handler every operation of which returns `exampleConfirmation` and no error. -/
def exampleCoreHandler : core.CentralSystemHandler :=
  { OnAuthorize := fun _ _ => (some exampleConfirmation, none)
    OnBootNotification := fun _ _ => (some exampleConfirmation, none)
    OnDataTransfer := fun _ _ => (some exampleConfirmation, none)
    OnHeartbeat := fun _ _ => (some exampleConfirmation, none)
    OnMeterValues := fun _ _ => (some exampleConfirmation, none)
    OnStatusNotification := fun _ _ => (some exampleConfirmation, none)
    OnStartTransaction := fun _ _ => (some exampleConfirmation, none)
    OnStopTransaction := fun _ _ => (some exampleConfirmation, none) }

/-- A server whose registry holds every feature name under the security profile and every
send of which succeeds. -/
def permissiveServer : Server :=
  { GetProfileForFeature := fun _ => some security.ProfileName
    SendRequest := fun _ _ => none
    SendResponse := fun _ _ _ => none
    SendError := fun _ _ _ _ => none }

/-- A server with an empty registry, every send of which succeeds. -/
def emptyServer : Server :=
  { GetProfileForFeature := fun _ => none
    SendRequest := fun _ _ => none
    SendResponse := fun _ _ _ => none
    SendError := fun _ _ _ _ => none }

/-- A server with an empty registry, every send of which fails with "write failed". -/
def failingServer : Server :=
  { GetProfileForFeature := fun _ => none
    SendRequest := fun _ _ => some (.plain "write failed")
    SendResponse := fun _ _ _ => some (.plain "write failed")
    SendError := fun _ _ _ _ => some (.plain "write failed") }

/-- A server that holds `Heartbeat` under the certificates profile and nothing else; every
send succeeds. -/
def heartbeatUnderCertificatesServer : Server :=
  { GetProfileForFeature := fun f =>
      if f = core.HeartbeatFeatureName then some certificates.ProfileName else none
    SendRequest := fun _ _ => none
    SendResponse := fun _ _ _ => none
    SendError := fun _ _ _ _ => none }

/-- The central system made by `newCentralSystem` on which `Errors()` has been called: the
errors channel exists and is empty. -/
def listeningCentralSystem (server : Server) : CentralSystem :=
  (newCentralSystem server).Errors

/-- A central system over `heartbeatUnderCertificatesServer` with the core handler set. -/
def heartbeatUnderCertificatesCS : CentralSystem :=
  { newCentralSystem heartbeatUnderCertificatesServer with coreHandler := some exampleCoreHandler }

/-! ## Vocabulary of the inbound properties -/

/-- The eleven profile tags of the spec, as profile names. -/
def profileTags : List String :=
  [core.ProfileName, localauth.ProfileName, firmware.ProfileName, reservation.ProfileName,
   remotetrigger.ProfileName, smartcharging.ProfileName, security.ProfileName,
   securefirmware.ProfileName, logging.ProfileName, certificates.ProfileName,
   extendedtriggermessage.ProfileName]

/-- The profiles for which the struct `centralSystem` has a handler field. -/
def handlerProfileNames : List String :=
  [core.ProfileName, localauth.ProfileName, firmware.ProfileName, reservation.ProfileName,
   remotetrigger.ProfileName, smartcharging.ProfileName, logging.ProfileName,
   security.ProfileName, securefirmware.ProfileName]

/-- Whether the central system has a handler set for the profile: the handler field of the
profile is non-nil. For a profile without a handler field (`Certificates`,
`ExtendedTriggerMessage`) no handler can be set. -/
def hasHandlerFor (cs : CentralSystem) (profileName : String) : Bool :=
  if profileName = core.ProfileName then cs.coreHandler.isSome
  else if profileName = localauth.ProfileName then cs.localAuthListHandler.isSome
  else if profileName = firmware.ProfileName then cs.firmwareHandler.isSome
  else if profileName = reservation.ProfileName then cs.reservationHandler.isSome
  else if profileName = remotetrigger.ProfileName then cs.remoteTriggerHandler.isSome
  else if profileName = smartcharging.ProfileName then cs.smartChargingHandler.isSome
  else if profileName = logging.ProfileName then cs.logHandler.isSome
  else if profileName = security.ProfileName then cs.securityHandler.isSome
  else if profileName = securefirmware.ProfileName then cs.secureFirmwareHandler.isSome
  else false

/-- The case constants of the switch on `action` in `handleIncomingRequest`, in source
order: the actions that are dispatched to a handler operation. -/
def inboundFeatureNames : List String :=
  [core.BootNotificationFeatureName, core.AuthorizeFeatureName, core.DataTransferFeatureName,
   core.HeartbeatFeatureName, core.MeterValuesFeatureName, core.StartTransactionFeatureName,
   core.StopTransactionFeatureName, core.StatusNotificationFeatureName,
   firmware.DiagnosticsStatusNotificationFeatureName,
   firmware.FirmwareStatusNotificationFeatureName,
   security.SignCertificateFeatureName, security.SecurityEventNotificationFeatureName,
   logging.LogStatusNotificationFeatureName,
   securefirmware.SignedFirmwareStatusNotificationFeatureName]

/-- A call of a generic callback. -/
def Event.isCallback : Event → Bool
  | .callback _ _ _ => true
  | _ => false

/-- A call of the owner's disconnect handler. -/
def Event.isDisconnectedHandler : Event → Bool
  | .disconnectedHandler _ => true
  | _ => false

/-- The calls of generic callbacks in a run, in order. -/
def Run.callbackCalls (r : Run) : List Event := r.trace.filter Event.isCallback

/-- The features that the spec lists as "ChargePoint→CentralSystem only", in the spec's
order. -/
def specChargePointToCentralSystemOnly : List String :=
  ["BootNotification", "Authorize", "Heartbeat", "MeterValues", "StartTransaction",
   "StopTransaction", "StatusNotification", "DiagnosticsStatusNotification",
   "FirmwareStatusNotification", "SignCertificate", "SecurityEventNotification",
   "LogStatusNotification", "SignedFirmwareStatusNotification"]

/-- The actions that the spec has a charge point send to a central system: the
"ChargePoint→CentralSystem only" ones and the one of "Both directions". -/
def specInbound (action : String) : Prop :=
  action ∈ specChargePointToCentralSystemOnly ∨ action = "DataTransfer"

instance (action : String) : Decidable (specInbound action) := by
  unfold specInbound; infer_instance

/-- Handlers are set for all profiles: each of the nine handler fields is non-nil. -/
def allHandlersSet (cs : CentralSystem) : Prop :=
  cs.coreHandler.isSome = true ∧ cs.localAuthListHandler.isSome = true ∧
  cs.firmwareHandler.isSome = true ∧ cs.reservationHandler.isSome = true ∧
  cs.remoteTriggerHandler.isSome = true ∧ cs.smartChargingHandler.isSome = true ∧
  cs.logHandler.isSome = true ∧ cs.securityHandler.isSome = true ∧
  cs.secureFirmwareHandler.isSome = true

/-- The standard OCPP 1.6 profile of each action that a charge point sends: the profile of the
package that declares its feature name (`core`, `firmware`, `security`, `logging`,
`securefirmware`). -/
def standardProfileOf (action : String) : Option String :=
  if action ∈ ["BootNotification", "Authorize", "DataTransfer", "Heartbeat", "MeterValues",
      "StartTransaction", "StopTransaction", "StatusNotification"] then some core.ProfileName
  else if action ∈ ["DiagnosticsStatusNotification", "FirmwareStatusNotification"] then
    some firmware.ProfileName
  else if action ∈ ["SignCertificate", "SecurityEventNotification"] then
    some security.ProfileName
  else if action = "LogStatusNotification" then some logging.ProfileName
  else if action = "SignedFirmwareStatusNotification" then some securefirmware.ProfileName
  else none

/-- The registry maps each feature that a charge point sends to its standard profile name. -/
def standardRegistry (server : Server) : Prop :=
  ∀ action profileName standard : String,
    server.GetProfileForFeature action = some profileName →
    standardProfileOf action = some standard → profileName = standard

/-- The routing that the spec describes for an inbound action: "the operation named after
that action on the handler of that action's profile"; `none` when that handler is nil or the
action is not one that a charge point sends. -/
def routedOperation (cs : CentralSystem) (action : String) : Option HandlerOp :=
  if action = "BootNotification" then
    cs.coreHandler.map core.CentralSystemHandler.OnBootNotification
  else if action = "Authorize" then cs.coreHandler.map core.CentralSystemHandler.OnAuthorize
  else if action = "Heartbeat" then cs.coreHandler.map core.CentralSystemHandler.OnHeartbeat
  else if action = "MeterValues" then cs.coreHandler.map core.CentralSystemHandler.OnMeterValues
  else if action = "StartTransaction" then
    cs.coreHandler.map core.CentralSystemHandler.OnStartTransaction
  else if action = "StopTransaction" then
    cs.coreHandler.map core.CentralSystemHandler.OnStopTransaction
  else if action = "StatusNotification" then
    cs.coreHandler.map core.CentralSystemHandler.OnStatusNotification
  else if action = "DataTransfer" then
    cs.coreHandler.map core.CentralSystemHandler.OnDataTransfer
  else if action = "DiagnosticsStatusNotification" then
    cs.firmwareHandler.map firmware.CentralSystemHandler.OnDiagnosticsStatusNotification
  else if action = "FirmwareStatusNotification" then
    cs.firmwareHandler.map firmware.CentralSystemHandler.OnFirmwareStatusNotification
  else if action = "SignCertificate" then
    cs.securityHandler.map security.CentralSystemHandler.OnSignCertificate
  else if action = "SecurityEventNotification" then
    cs.securityHandler.map security.CentralSystemHandler.OnSecurityEventNotification
  else if action = "LogStatusNotification" then
    cs.logHandler.map logging.CentralSystemHandler.OnLogStatusNotification
  else if action = "SignedFirmwareStatusNotification" then
    cs.secureFirmwareHandler.map
      securefirmware.CentralSystemHandler.OnSignedFirmwareStatusNotification
  else none

/-- A central system over the permissive server with every handler set. -/
def fullyHandledCS : CentralSystem :=
  { newCentralSystem permissiveServer with
    coreHandler := some exampleCoreHandler
    localAuthListHandler := some ⟨⟩
    firmwareHandler := some ⟨fun _ _ => (some exampleConfirmation, none),
      fun _ _ => (some exampleConfirmation, none)⟩
    reservationHandler := some ⟨⟩
    remoteTriggerHandler := some ⟨⟩
    smartChargingHandler := some ⟨⟩
    logHandler := some ⟨fun _ _ => (some exampleConfirmation, none)⟩
    securityHandler := some ⟨fun _ _ => (some exampleConfirmation, none),
      fun _ _ => (some exampleConfirmation, none)⟩
    secureFirmwareHandler := some ⟨fun _ _ => (some exampleConfirmation, none)⟩ }

/-- A callback queue that holds, for `cp1`, a pending call with callback 1 and a queued
`Reset` with callback 2, and nothing for any other peer. -/
def exampleQueue : CallbackQueue := fun id =>
  if id = "cp1" then ⟨some (.generic 1), [⟨⟨"Reset", "Hard"⟩, .generic 2⟩]⟩ else ⟨none, []⟩

/-- A central system over the empty server, with the errors channel made, that holds
`exampleQueue`. -/
def queuedCS : CentralSystem :=
  { listeningCentralSystem emptyServer with callbackQueue := exampleQueue }

/-- A server that holds the features that a charge point sends under their standard
profiles and nothing else; every send succeeds. -/
def standardServer : Server :=
  { GetProfileForFeature := standardProfileOf
    SendRequest := fun _ _ => none
    SendResponse := fun _ _ _ => none
    SendError := fun _ _ _ _ => none }

/-- The central system after `cs.GetLog("cp1", callback 1, ...)` and then
`cs.Reset("cp1", callback 2, ...)` on a new central system over the permissive server: for
`cp1` the `GetLog` call is pending and the `Reset` call is queued behind it. -/
def getLogThenResetCS : CentralSystem :=
  (TypedAction.Reset.call
    (TypedAction.GetLog.call (newCentralSystem permissiveServer) "cp1" 1 "").1.cs
    "cp1" 2 "Hard").1.cs

/-- The central system `getLogThenResetCS` after one `Dequeue` for `cp1`. -/
def getLogDequeuedCS : CentralSystem :=
  { getLogThenResetCS with
    callbackQueue := (getLogThenResetCS.callbackQueue.Dequeue "cp1").1 }

/-! ## Shared lemmas -/

theorem mem_sendableFeatureNames_iff (featureName : String) :
    featureName ∈ sendableFeatureNames ↔ specPermittedToSend featureName := by
  unfold specPermittedToSend
  constructor
  · intro h
    simp only [sendableFeatureNames, List.mem_cons, List.mem_singleton, List.not_mem_nil,
      or_false] at h
    rcases h with h | h | h | h | h | h | h | h | h | h | h | h | h | h | h | h | h | h | h | h |
      h | h | h | h | h | h <;> subst h <;> decide
  · intro h
    rcases h with h | h
    · simp only [specCentralSystemToChargePointOnly, List.mem_cons, List.mem_singleton,
        List.not_mem_nil, or_false] at h
      rcases h with h | h | h | h | h | h | h | h | h | h | h | h | h | h | h | h | h | h | h |
        h | h | h | h | h | h <;> subst h <;> decide
    · subst h; decide

theorem SendRequestAsync_of_sendable (cs : CentralSystem) (clientId : String)
    (request : Request) (callback : Callback) (p : String)
    (hp : cs.server.GetProfileForFeature request.GetFeatureName = some p)
    (hf : request.GetFeatureName ∈ sendableFeatureNames) :
    (SendRequestAsync cs clientId request callback).1.trace =
      .TryQueue clientId request callback ::
        (cs.callbackQueue.TryQueue cs.server clientId request callback).2.1 := by
  simp [SendRequestAsync, hp, hf]

theorem SendRequestAsync_of_not_sendable (cs : CentralSystem) (clientId : String)
    (request : Request) (callback : Callback) (p : String)
    (hp : cs.server.GetProfileForFeature request.GetFeatureName = some p)
    (hf : request.GetFeatureName ∉ sendableFeatureNames) :
    SendRequestAsync cs clientId request callback =
      (⟨cs, [], .returned⟩, some (unsupportedActionError request.GetFeatureName)) := by
  simp [SendRequestAsync, hp, hf]

theorem SendRequestAsync_of_missing_profile (cs : CentralSystem) (clientId : String)
    (request : Request) (callback : Callback)
    (hp : cs.server.GetProfileForFeature request.GetFeatureName = none) :
    SendRequestAsync cs clientId request callback =
      (⟨cs, [], .returned⟩, some (missingProfileError request.GetFeatureName)) := by
  simp [SendRequestAsync, hp]

theorem error_trace (cs : CentralSystem) (err : GoError) :
    (cs.error err).trace = [.error err] := by
  unfold CentralSystem.error
  split
  · rfl
  · split <;> rfl

theorem error_on_empty_channel (cs : CentralSystem) (err : GoError) (h : cs.errC = some []) :
    (cs.error err).cs.errC = some [err] ∧ (cs.error err).status = .returned := by
  simp [CentralSystem.error, h, errCCapacity]

theorem notImplementedError_trace (cs : CentralSystem) (chargePointId requestId action : String) :
    (notImplementedError cs chargePointId requestId action).trace =
      .SendError chargePointId requestId ocppj.NotImplemented
          ("no handler for action " ++ action ++ " implemented") ::
        (match cs.server.SendError chargePointId requestId ocppj.NotImplemented
            ("no handler for action " ++ action ++ " implemented") with
          | some err => [.error (.plain ("replying cp " ++ chargePointId ++ " to request " ++
              requestId ++ " with \x27not implemented\x27: " ++ err.Error))]
          | none => []) := by
  unfold notImplementedError
  split <;> simp_all [Run.after, error_trace]

theorem notSupportedError_trace (cs : CentralSystem) (chargePointId requestId action : String) :
    (notSupportedError cs chargePointId requestId action).trace =
      .SendError chargePointId requestId ocppj.NotSupported
          ("unsupported action " ++ action ++ " on central system") ::
        (match cs.server.SendError chargePointId requestId ocppj.NotSupported
            ("unsupported action " ++ action ++ " on central system") with
          | some err => [.error (.plain ("replying cp " ++ chargePointId ++ " to request " ++
              requestId ++ " with \x27not supported\x27: " ++ err.Error))]
          | none => []) := by
  unfold notSupportedError
  split <;> simp_all [Run.after, error_trace]

theorem handlerMissing_of_no_handler (cs : CentralSystem) (p : String)
    (hp : p ∈ handlerProfileNames) (hnone : hasHandlerFor cs p = false) :
    handlerMissing cs p = true := by
  unfold hasHandlerFor at hnone
  unfold handlerMissing
  simp only [handlerProfileNames, List.mem_cons, List.mem_singleton, List.not_mem_nil,
    or_false] at hp
  split_ifs at hnone ⊢ <;> simp_all [Option.isNone_iff_eq_none]

theorem handlerMissing_of_not_handlerProfile (cs : CentralSystem) (p : String)
    (hp : p ∉ handlerProfileNames) : handlerMissing cs p = false := by
  simp only [handlerProfileNames, List.mem_cons, List.mem_singleton, List.not_mem_nil,
    or_false, not_or] at hp
  simp [handlerMissing, hp]

theorem dispatch_of_not_inbound (cs : CentralSystem) (chargePointId : String)
    (request : Request) (action : String) (h : action ∉ inboundFeatureNames) :
    dispatch cs chargePointId request action = .unsupported := by
  simp only [inboundFeatureNames, List.mem_cons, List.mem_singleton, List.not_mem_nil,
    or_false, not_or] at h
  simp [dispatch, h]

theorem sendResponse_trace_of_send_ok (cs : CentralSystem) (chargePointId : String)
    (confirmation : Response) (err : Option GoError) (requestId : String)
    (hErr : ∀ a b c d, cs.server.SendError a b c d = none)
    (hResp : ∀ a b c, cs.server.SendResponse a b c = none) :
    (∃ c, (sendResponse cs chargePointId confirmation err requestId).trace =
        [.SendResponse chargePointId requestId c]) ∨
      (∃ code description, (sendResponse cs chargePointId confirmation err requestId).trace =
        [.SendError chargePointId requestId code description]) ∨
      (∃ code description e, (sendResponse cs chargePointId confirmation err requestId).trace =
        [.SendError chargePointId requestId code description, .error e]) := by
  cases err with
  | some e =>
    refine Or.inr (Or.inl ?_)
    cases e <;> simp [sendResponse, hErr]
  | none =>
    cases confirmation with
    | ptr c => exact Or.inl ⟨c, by simp [sendResponse, hResp]⟩
    | nil => exact Or.inr (Or.inr (by simp [sendResponse, Run.after, error_trace]))
    | typedNil t => exact Or.inr (Or.inr (by simp [sendResponse, Run.after, error_trace]))

theorem drainCallbacks_of_no_pending (cs : CentralSystem) (chargePoint : String)
    (h : (cs.callbackQueue chargePoint).pending = none) :
    drainCallbacks cs chargePoint = ⟨cs, [], .returned⟩ := by
  rw [drainCallbacks]
  have hd : cs.callbackQueue.Dequeue chargePoint = (cs.callbackQueue, [], none) := by
    simp [CallbackQueue.Dequeue, h]
  split
  · simp [hd]
  · rename_i cb hcb
    simp [hd] at hcb

theorem Dequeue_of_pending (q : CallbackQueue) (id : String) (cb : Callback)
    (h : (q id).pending = some cb) :
    (q.Dequeue id).2.2 = some cb ∧
      (q.Dequeue id).1.held id = (q id).queued.map QueuedEntry.callback ∧
      (q.Dequeue id).1.wellFormed id ∧
      (∀ other, other ≠ id → (q.Dequeue id).1 other = q other) ∧
      (q.Dequeue id).2.1.filter Event.isCallback = [] ∧
      (q.Dequeue id).2.1.filter Event.isDisconnectedHandler = [] := by
  cases hq : (q id).queued with
  | nil =>
    simp [CallbackQueue.Dequeue, h, hq, CallbackQueue.held, CallbackQueue.wellFormed]
    intro other ho
    simp [Function.update, ho]
  | cons e rest =>
    simp [CallbackQueue.Dequeue, h, hq, CallbackQueue.held, CallbackQueue.wellFormed,
      Event.isCallback, Event.isDisconnectedHandler]
    intro other ho
    simp [Function.update, ho]

theorem invoke_callbackCalls (cb : Callback) (confirmation : Response) (err : Option GoError) :
    (cb.invoke confirmation err).1.filter Event.isCallback = [.callback cb confirmation err] ∧
      (cb.invoke confirmation err).1.filter Event.isDisconnectedHandler = [] := by
  cases cb with
  | generic id => simp [Callback.invoke, Event.isCallback, Event.isDisconnectedHandler]
  | typed a id =>
    simp only [Callback.invoke, genericCallback]
    split_ifs <;> (try split) <;>
      simp [Event.isCallback, Event.isDisconnectedHandler]

theorem drainCallbacks_of_pending (cs : CentralSystem) (chargePoint : String) (cb : Callback)
    (h : (cs.callbackQueue chargePoint).pending = some cb) :
    drainCallbacks cs chargePoint =
      match (cb.invoke .nil (some disconnectError)).2 with
      | .returned =>
        Run.after
          ((cs.callbackQueue.Dequeue chargePoint).2.1 ++
            (cb.invoke .nil (some disconnectError)).1)
          (drainCallbacks { cs with callbackQueue := (cs.callbackQueue.Dequeue chargePoint).1 }
            chargePoint)
      | status =>
        ⟨{ cs with callbackQueue := (cs.callbackQueue.Dequeue chargePoint).1 },
          (cs.callbackQueue.Dequeue chargePoint).2.1 ++
            (cb.invoke .nil (some disconnectError)).1, status⟩ := by
  rw [drainCallbacks]
  have hd := (Dequeue_of_pending cs.callbackQueue chargePoint cb h).1
  split
  · rename_i hn
    rw [hd] at hn
    cases hn
  · rename_i cb2 hcb
    rw [hd] at hcb
    cases hcb
    rfl
theorem drainCallbacks_spec (chargePoint : String) (n : Nat) :
    ∀ cs : CentralSystem, (cs.callbackQueue.held chargePoint).length = n →
      cs.callbackQueue.wellFormed chargePoint →
      (∀ other, other ≠ chargePoint →
        (drainCallbacks cs chargePoint).cs.callbackQueue other = cs.callbackQueue other) ∧
      ((drainCallbacks cs chargePoint).status = .returned →
        (drainCallbacks cs chargePoint).cs.callbackQueue.held chargePoint = []) ∧
      ((∀ cb ∈ cs.callbackQueue.held chargePoint,
          (cb.invoke .nil (some disconnectError)).2 = .returned) →
        (drainCallbacks cs chargePoint).status = .returned ∧
        (drainCallbacks cs chargePoint).trace.filter Event.isCallback =
          (cs.callbackQueue.held chargePoint).map
            (fun cb => Event.callback cb .nil (some disconnectError)) ∧
        (drainCallbacks cs chargePoint).trace.filter Event.isDisconnectedHandler = []) := by
  induction n with
  | zero =>
    intro cs hlen hwf
    have hheld : cs.callbackQueue.held chargePoint = [] := List.length_eq_zero.mp hlen
    have hp : (cs.callbackQueue chargePoint).pending = none := by
      cases hp : (cs.callbackQueue chargePoint).pending with
      | none => rfl
      | some cb => simp [CallbackQueue.held, hp] at hheld
    rw [drainCallbacks_of_no_pending cs chargePoint hp]
    simp [hheld]
  | succ n ih =>
    intro cs hlen hwf
    cases hp : (cs.callbackQueue chargePoint).pending with
    | none =>
      have hq := hwf hp
      simp [CallbackQueue.held, hp, hq] at hlen
    | some cb =>
      obtain ⟨-, hheld', hwf', hother, hev1, hev2⟩ :=
        Dequeue_of_pending cs.callbackQueue chargePoint cb hp
      have hheld : cs.callbackQueue.held chargePoint =
          cb :: (cs.callbackQueue chargePoint).queued.map QueuedEntry.callback := by
        simp [CallbackQueue.held, hp]
      have hlen' : (({ cs with callbackQueue := (cs.callbackQueue.Dequeue chargePoint).1 } :
          CentralSystem).callbackQueue.held chargePoint).length = n := by
        rw [hheld] at hlen
        simp only [hheld']
        simpa using hlen
      obtain ⟨ih1, ih2, ih3⟩ :=
        ih { cs with callbackQueue := (cs.callbackQueue.Dequeue chargePoint).1 } hlen' hwf'
      obtain ⟨hc1, hc2⟩ := invoke_callbackCalls cb .nil (some disconnectError)
      rw [drainCallbacks_of_pending cs chargePoint cb hp]
      cases hst : (cb.invoke .nil (some disconnectError)).2 with
      | returned =>
        simp only [Run.after]
        refine ⟨fun other ho => (ih1 other ho).trans (hother other ho), ih2, fun hret => ?_⟩
        have hret' : ∀ c ∈ ({ cs with callbackQueue := (cs.callbackQueue.Dequeue chargePoint).1 } :
            CentralSystem).callbackQueue.held chargePoint,
            (c.invoke .nil (some disconnectError)).2 = .returned := by
          intro c hc
          apply hret
          rw [hheld]
          simp only [hheld'] at hc
          exact List.mem_cons_of_mem _ hc
        obtain ⟨h1, h2, h3⟩ := ih3 hret'
        refine ⟨h1, ?_, ?_⟩
        · simp only [List.filter_append, hev1, hc1, h2, hheld, hheld']
          simp
        · simp only [List.filter_append, hev2, hc2, h3]
          simp
      | panicked =>
        dsimp only
        refine ⟨fun other ho => hother other ho, (fun h => by cases h), fun hret => ?_⟩
        have := hret cb (by rw [hheld]; exact List.mem_cons_self _ _)
        rw [hst] at this
        cases this
      | blocked =>
        dsimp only
        refine ⟨fun other ho => hother other ho, (fun h => by cases h), fun hret => ?_⟩
        have := hret cb (by rw [hheld]; exact List.mem_cons_self _ _)
        rw [hst] at this
        cases this
theorem error_status (cs : CentralSystem) (err : GoError) :
    (cs.error err).status ≠ .panicked := by
  unfold CentralSystem.error
  split
  · simp
  · split <;> simp

theorem sendResponse_status (cs : CentralSystem) (chargePointId : String)
    (confirmation : Response) (err : Option GoError) (requestId : String) :
    (sendResponse cs chargePointId confirmation err requestId).status ≠ .panicked := by
  cases err with
  | some e =>
    cases e with
    | ocpp ocppError =>
      cases hS : cs.server.SendError chargePointId requestId ocppError.Code
          ocppError.Description <;>
        simp [sendResponse, hS, Run.after, error_status]
    | plain msg =>
      cases hS : cs.server.SendError chargePointId requestId ocppj.InternalError msg <;>
        simp [sendResponse, hS, Run.after, error_status]
  | none =>
    cases confirmation with
    | ptr c =>
      cases hS : cs.server.SendResponse chargePointId requestId c <;>
        simp [sendResponse, hS, Run.after, error_status]
    | nil => simp [sendResponse, Run.after, error_status]
    | typedNil t => simp [sendResponse, Run.after, error_status]

theorem notSupportedError_status (cs : CentralSystem) (chargePointId requestId action : String) :
    (notSupportedError cs chargePointId requestId action).status ≠ .panicked := by
  cases hS : cs.server.SendError chargePointId requestId ocppj.NotSupported
      ("unsupported action " ++ action ++ " on central system") <;>
    simp [notSupportedError, hS, Run.after, error_status]

theorem notImplementedError_status (cs : CentralSystem)
    (chargePointId requestId action : String) :
    (notImplementedError cs chargePointId requestId action).status ≠ .panicked := by
  cases hS : cs.server.SendError chargePointId requestId ocppj.NotImplemented
      ("no handler for action " ++ action ++ " implemented") <;>
    simp [notImplementedError, hS, Run.after, error_status]

theorem handler_checked_of_standard (cs : CentralSystem) (action profileName standard : String)
    (hstd : standardRegistry cs.server)
    (hreg : cs.server.GetProfileForFeature action = some profileName)
    (hmiss : handlerMissing cs profileName = false)
    (hs : standardProfileOf action = some standard) :
    handlerMissing cs standard = false := by
  rw [← hstd action profileName standard hreg hs]
  exact hmiss

theorem callHandler_ne_nilHandler {H : Type} (handler : Option H) (op : H → HandlerOp)
    (operation goType requestType chargePointId : String) (request : Request)
    (h : handler.isNone = false) :
    callHandler handler op operation goType requestType chargePointId request
      ≠ .nilHandler := by
  cases handler with
  | none => simp at h
  | some x =>
    simp only [callHandler]
    split <;> exact fun h => Dispatched.noConfusion h

theorem dispatch_ne_nilHandler (cs : CentralSystem) (chargePointId : String)
    (request : Request) (action profileName : String)
    (hstd : standardRegistry cs.server)
    (hreg : cs.server.GetProfileForFeature action = some profileName)
    (hmiss : handlerMissing cs profileName = false) :
    dispatch cs chargePointId request action ≠ .nilHandler := by
  by_cases hin : action ∈ inboundFeatureNames
  · have hcore : standardProfileOf action = some core.ProfileName →
        cs.coreHandler.isNone = false := fun hs => by
      simpa [handlerMissing] using
        handler_checked_of_standard cs action profileName _ hstd hreg hmiss hs
    have hfirmware : standardProfileOf action = some firmware.ProfileName →
        cs.firmwareHandler.isNone = false := fun hs => by
      simpa [handlerMissing, core.ProfileName, localauth.ProfileName, firmware.ProfileName] using
        handler_checked_of_standard cs action profileName _ hstd hreg hmiss hs
    have hsecurity : standardProfileOf action = some security.ProfileName →
        cs.securityHandler.isNone = false := fun hs => by
      simpa [handlerMissing, core.ProfileName, localauth.ProfileName, firmware.ProfileName,
        reservation.ProfileName, remotetrigger.ProfileName, smartcharging.ProfileName,
        logging.ProfileName, security.ProfileName] using
        handler_checked_of_standard cs action profileName _ hstd hreg hmiss hs
    have hlogging : standardProfileOf action = some logging.ProfileName →
        cs.logHandler.isNone = false := fun hs => by
      simpa [handlerMissing, core.ProfileName, localauth.ProfileName, firmware.ProfileName,
        reservation.ProfileName, remotetrigger.ProfileName, smartcharging.ProfileName,
        logging.ProfileName] using
        handler_checked_of_standard cs action profileName _ hstd hreg hmiss hs
    have hsecurefirmware : standardProfileOf action = some securefirmware.ProfileName →
        cs.secureFirmwareHandler.isNone = false := fun hs => by
      simpa [handlerMissing, core.ProfileName, localauth.ProfileName, firmware.ProfileName,
        reservation.ProfileName, remotetrigger.ProfileName, smartcharging.ProfileName,
        logging.ProfileName, security.ProfileName, securefirmware.ProfileName] using
        handler_checked_of_standard cs action profileName _ hstd hreg hmiss hs
    simp only [inboundFeatureNames, List.mem_cons, List.mem_singleton, List.not_mem_nil,
      or_false] at hin
    rcases hin with h | h | h | h | h | h | h | h | h | h | h | h | h | h <;> subst h
    all_goals first
      | (have hh := hcore (by decide)
         simp only [dispatch, core.BootNotificationFeatureName,
          core.AuthorizeFeatureName, core.DataTransferFeatureName, core.HeartbeatFeatureName,
          core.MeterValuesFeatureName, core.StartTransactionFeatureName,
          core.StopTransactionFeatureName, core.StatusNotificationFeatureName,
          firmware.DiagnosticsStatusNotificationFeatureName,
          firmware.FirmwareStatusNotificationFeatureName, security.SignCertificateFeatureName,
          security.SecurityEventNotificationFeatureName,
          logging.LogStatusNotificationFeatureName,
          securefirmware.SignedFirmwareStatusNotificationFeatureName]
         simp
         exact callHandler_ne_nilHandler _ _ _ _ _ _ _ hh)
      | (have hh := hfirmware (by decide)
         simp only [dispatch, core.BootNotificationFeatureName,
          core.AuthorizeFeatureName, core.DataTransferFeatureName, core.HeartbeatFeatureName,
          core.MeterValuesFeatureName, core.StartTransactionFeatureName,
          core.StopTransactionFeatureName, core.StatusNotificationFeatureName,
          firmware.DiagnosticsStatusNotificationFeatureName,
          firmware.FirmwareStatusNotificationFeatureName, security.SignCertificateFeatureName,
          security.SecurityEventNotificationFeatureName,
          logging.LogStatusNotificationFeatureName,
          securefirmware.SignedFirmwareStatusNotificationFeatureName]
         simp
         exact callHandler_ne_nilHandler _ _ _ _ _ _ _ hh)
      | (have hh := hsecurity (by decide)
         simp only [dispatch, core.BootNotificationFeatureName,
          core.AuthorizeFeatureName, core.DataTransferFeatureName, core.HeartbeatFeatureName,
          core.MeterValuesFeatureName, core.StartTransactionFeatureName,
          core.StopTransactionFeatureName, core.StatusNotificationFeatureName,
          firmware.DiagnosticsStatusNotificationFeatureName,
          firmware.FirmwareStatusNotificationFeatureName, security.SignCertificateFeatureName,
          security.SecurityEventNotificationFeatureName,
          logging.LogStatusNotificationFeatureName,
          securefirmware.SignedFirmwareStatusNotificationFeatureName]
         simp
         exact callHandler_ne_nilHandler _ _ _ _ _ _ _ hh)
      | (have hh := hlogging (by decide)
         simp only [dispatch, core.BootNotificationFeatureName,
          core.AuthorizeFeatureName, core.DataTransferFeatureName, core.HeartbeatFeatureName,
          core.MeterValuesFeatureName, core.StartTransactionFeatureName,
          core.StopTransactionFeatureName, core.StatusNotificationFeatureName,
          firmware.DiagnosticsStatusNotificationFeatureName,
          firmware.FirmwareStatusNotificationFeatureName, security.SignCertificateFeatureName,
          security.SecurityEventNotificationFeatureName,
          logging.LogStatusNotificationFeatureName,
          securefirmware.SignedFirmwareStatusNotificationFeatureName]
         simp
         exact callHandler_ne_nilHandler _ _ _ _ _ _ _ hh)
      | (have hh := hsecurefirmware (by decide)
         simp only [dispatch, core.BootNotificationFeatureName,
          core.AuthorizeFeatureName, core.DataTransferFeatureName, core.HeartbeatFeatureName,
          core.MeterValuesFeatureName, core.StartTransactionFeatureName,
          core.StopTransactionFeatureName, core.StatusNotificationFeatureName,
          firmware.DiagnosticsStatusNotificationFeatureName,
          firmware.FirmwareStatusNotificationFeatureName, security.SignCertificateFeatureName,
          security.SecurityEventNotificationFeatureName,
          logging.LogStatusNotificationFeatureName,
          securefirmware.SignedFirmwareStatusNotificationFeatureName]
         simp
         exact callHandler_ne_nilHandler _ _ _ _ _ _ _ hh)
  · rw [dispatch_of_not_inbound cs chargePointId request action hin]
    exact fun h => Dispatched.noConfusion h
theorem dispatch_ne_typeAssertionFailed (cs : CentralSystem) (chargePointId : String)
    (request : Request) (action : String) (hreq : request.GetFeatureName = action) :
    dispatch cs chargePointId request action ≠ .typeAssertionFailed := by
  by_cases hin : action ∈ inboundFeatureNames
  · simp only [inboundFeatureNames, List.mem_cons, List.mem_singleton, List.not_mem_nil,
      or_false] at hin
    rcases hin with h | h | h | h | h | h | h | h | h | h | h | h | h | h <;> subst h
    all_goals
      simp only [dispatch, callHandler, core.BootNotificationFeatureName,
      core.AuthorizeFeatureName, core.DataTransferFeatureName, core.HeartbeatFeatureName,
      core.MeterValuesFeatureName, core.StartTransactionFeatureName,
      core.StopTransactionFeatureName, core.StatusNotificationFeatureName,
      firmware.DiagnosticsStatusNotificationFeatureName,
      firmware.FirmwareStatusNotificationFeatureName, security.SignCertificateFeatureName,
      security.SecurityEventNotificationFeatureName,
      logging.LogStatusNotificationFeatureName,
      securefirmware.SignedFirmwareStatusNotificationFeatureName, hreq]
      simp
      split <;> simp
  · rw [dispatch_of_not_inbound cs chargePointId request action hin]
    exact fun h => Dispatched.noConfusion h

theorem getLogThenReset_drain :
    drainCallbacks getLogThenResetCS "cp1" =
      ⟨getLogDequeuedCS,
        [.SendRequest "cp1" ⟨"Reset", "Hard"⟩,
         .callback (.typed .GetLog 1) .nil (some disconnectError)],
        .panicked⟩ := by
  have hp : (getLogThenResetCS.callbackQueue "cp1").pending = some (.typed .GetLog 1) := by
    decide
  have hinv : (Callback.invoke (.typed .GetLog 1) .nil (some disconnectError)).2
      = .panicked := by decide
  have htrace : (getLogThenResetCS.callbackQueue.Dequeue "cp1").2.1 ++
      (Callback.invoke (.typed .GetLog 1) .nil (some disconnectError)).1 =
      [.SendRequest "cp1" ⟨"Reset", "Hard"⟩,
       .callback (.typed .GetLog 1) .nil (some disconnectError)] := by decide
  rw [drainCallbacks_of_pending getLogThenResetCS "cp1" _ hp, hinv]
  simp only [htrace, getLogDequeuedCS]

theorem getLogThenReset_disconnect :
    disconnectedClientHandler getLogThenResetCS "cp1" =
      ⟨getLogDequeuedCS,
        [.SendRequest "cp1" ⟨"Reset", "Hard"⟩,
         .callback (.typed .GetLog 1) .nil (some disconnectError)],
        .panicked⟩ := by
  simp only [disconnectedClientHandler, getLogThenReset_drain]

theorem mem_inboundFeatureNames_iff (action : String) :
    action ∈ inboundFeatureNames ↔ specInbound action := by
  unfold specInbound
  constructor
  · intro h
    simp only [inboundFeatureNames, List.mem_cons, List.mem_singleton, List.not_mem_nil,
      or_false] at h
    rcases h with h | h | h | h | h | h | h | h | h | h | h | h | h | h <;> subst h <;> decide
  · intro h
    rcases h with h | h
    · simp only [specChargePointToCentralSystemOnly, List.mem_cons, List.mem_singleton,
        List.not_mem_nil, or_false] at h
      rcases h with h | h | h | h | h | h | h | h | h | h | h | h | h <;> subst h <;> decide
    · subst h; decide

theorem handlerMissing_of_allHandlersSet (cs : CentralSystem) (profileName : String)
    (hall : allHandlersSet cs) : handlerMissing cs profileName = false := by
  obtain ⟨h1, h2, h3, h4, h5, h6, h7, h8, h9⟩ := hall
  unfold handlerMissing
  split_ifs <;> simp_all [Option.isNone_iff_eq_none, Option.isSome_iff_exists]

theorem sendResponse_ofPtr_tag (cs : CentralSystem) (chargePointId : String)
    (goType goType2 : String) (p : Option Confirmation) (err : Option GoError)
    (requestId : String) :
    sendResponse cs chargePointId (Response.ofPtr goType p) err requestId =
      sendResponse cs chargePointId (Response.ofPtr goType2 p) err requestId := by
  cases p <;> cases err <;> simp [Response.ofPtr, sendResponse]

theorem sendResponse_handlerCalls (cs : CentralSystem) (chargePointId : String)
    (confirmation : Response) (err : Option GoError) (requestId : String) :
    (sendResponse cs chargePointId confirmation err requestId).trace.filter
      Event.isHandlerCall = [] := by
  cases err with
  | some e =>
    cases e with
    | ocpp ocppError =>
      cases hS : cs.server.SendError chargePointId requestId ocppError.Code
          ocppError.Description <;>
        simp [sendResponse, hS, Run.after, error_trace, Event.isHandlerCall]
    | plain msg =>
      cases hS : cs.server.SendError chargePointId requestId ocppj.InternalError msg <;>
        simp [sendResponse, hS, Run.after, error_trace, Event.isHandlerCall]
  | none =>
    cases confirmation with
    | ptr c =>
      cases hS : cs.server.SendResponse chargePointId requestId c <;>
        simp [sendResponse, hS, Run.after, error_trace, Event.isHandlerCall]
    | nil => simp [sendResponse, Run.after, error_trace, Event.isHandlerCall]
    | typedNil t => simp [sendResponse, Run.after, error_trace, Event.isHandlerCall]

theorem routed_of_inbound (cs : CentralSystem) (chargePoint : String) (request : Request)
    (requestId action profileName : String) (hall : allHandlersSet cs)
    (hreg : cs.server.GetProfileForFeature action = some profileName)
    (hreq : request.GetFeatureName = action)
    (hin : specInbound action) :
    (routedOperation cs action).isSome = true ∧
      ∀ (op : HandlerOp) (goType : String), routedOperation cs action = some op →
        (handleIncomingRequest cs chargePoint request requestId action).trace =
          .handler ("On" ++ action) chargePoint request ::
            (sendResponse cs chargePoint (Response.ofPtr goType (op chargePoint request).1)
              (op chargePoint request).2 requestId).trace := by
  have hmiss := handlerMissing_of_allHandlersSet cs profileName hall
  obtain ⟨h1, -, h3, -, -, -, h7, h8, h9⟩ := hall
  obtain ⟨xc, hc⟩ := Option.isSome_iff_exists.mp h1
  obtain ⟨xf, hf⟩ := Option.isSome_iff_exists.mp h3
  obtain ⟨xl, hl⟩ := Option.isSome_iff_exists.mp h7
  obtain ⟨xs, hs⟩ := Option.isSome_iff_exists.mp h8
  obtain ⟨xsf, hsf⟩ := Option.isSome_iff_exists.mp h9
  simp only [specInbound, specChargePointToCentralSystemOnly, List.mem_cons, List.mem_singleton,
    List.not_mem_nil, or_false] at hin
  rcases hin with (h | h | h | h | h | h | h | h | h | h | h | h | h) | h <;> subst h
  all_goals
    refine ⟨by simp [routedOperation, hc, hf, hl, hs, hsf], fun op goType hop => ?_⟩
    simp [routedOperation, hc, hf, hl, hs, hsf] at hop
    subst hop
    simp [handleIncomingRequest, hreg, hmiss, hreq, dispatch, callHandler, hc, hf, hl, hs, hsf,
      Run.after, core.BootNotificationFeatureName,
      core.AuthorizeFeatureName, core.DataTransferFeatureName, core.HeartbeatFeatureName,
      core.MeterValuesFeatureName, core.StartTransactionFeatureName,
      core.StopTransactionFeatureName, core.StatusNotificationFeatureName,
      firmware.DiagnosticsStatusNotificationFeatureName,
      firmware.FirmwareStatusNotificationFeatureName, security.SignCertificateFeatureName,
      security.SecurityEventNotificationFeatureName,
      logging.LogStatusNotificationFeatureName,
      securefirmware.SignedFirmwareStatusNotificationFeatureName]
    exact congrArg Run.trace (sendResponse_ofPtr_tag cs chargePoint _ _ _ _ _)

theorem wellFormed_New (id : String) : CallbackQueue.New.wellFormed id := by
  intro _
  rfl

theorem wellFormed_TryQueue (q : CallbackQueue) (server : Server) (id : String)
    (request : Request) (callback : Callback) (hwf : q.wellFormed id) :
    (q.TryQueue server id request callback).1.wellFormed id := by
  unfold CallbackQueue.TryQueue
  split
  · rename_i cb hp
    intro h
    simp [hp] at h
  · split
    · intro h
      simp at h
    · exact hwf

theorem wellFormed_Dequeue (q : CallbackQueue) (id : String) (hwf : q.wellFormed id) :
    (q.Dequeue id).1.wellFormed id := by
  cases hp : (q id).pending with
  | none =>
    have hd : q.Dequeue id = (q, [], none) := by simp [CallbackQueue.Dequeue, hp]
    rw [hd]
    exact hwf
  | some cb => exact (Dequeue_of_pending q id cb hp).2.2.1

/-! ## Outbound properties -/

/-- C1. For a request whose feature has a registered profile, `SendRequestAsync` passes the
direction check (it does not return the "unsupported action ... on central system" error)
if and only if the feature name is one of the 25 CentralSystem→ChargePoint features of the
spec or `DataTransfer`. -/
theorem direction_check_passes_iff_permitted (cs : CentralSystem) (clientId : String)
    (request : Request) (callback : Callback)
    (hfound : (cs.server.GetProfileForFeature request.GetFeatureName).isSome = true) :
    ¬ refusedByDirectionCheck cs clientId request callback ↔
      specPermittedToSend request.GetFeatureName := by
  obtain ⟨p, hp⟩ := Option.isSome_iff_exists.mp hfound
  rw [← mem_sendableFeatureNames_iff]
  constructor
  · intro hpass
    by_contra hf
    apply hpass
    rw [refusedByDirectionCheck, SendRequestAsync_of_not_sendable cs clientId request callback p hp hf]
    exact ⟨rfl, rfl⟩
  · intro hf hrefused
    have htrace := hrefused.2
    rw [SendRequestAsync_of_sendable cs clientId request callback p hp hf] at htrace
    exact List.cons_ne_nil _ _ htrace

/-- Witness of C1: `Reset`, registered on the permissive server, passes the direction
check. -/
theorem direction_check_passes_iff_permitted_witness :
    (permissiveServer.GetProfileForFeature
        (Request.mk "Reset" "Hard").GetFeatureName).isSome = true ∧
      (¬ refusedByDirectionCheck (newCentralSystem permissiveServer) "cp1"
          (Request.mk "Reset" "Hard") (.generic 0) ↔
        specPermittedToSend (Request.mk "Reset" "Hard").GetFeatureName) :=
  ⟨rfl, direction_check_passes_iff_permitted (newCentralSystem permissiveServer) "cp1"
    (Request.mk "Reset" "Hard") (.generic 0) rfl⟩

/-- C2. When `SendRequestAsync` fails pre-flight (the feature of the request has no
registered profile, or the spec does not permit a central system to send it), it returns a
non-nil error at once and has no effect: `TryQueue` is not called, `SendRequest` is not
called, no callback is invoked, and the callback queue is as before. -/
theorem preflight_failure_has_no_effect (cs : CentralSystem) (clientId : String)
    (request : Request) (callback : Callback)
    (hfail : cs.server.GetProfileForFeature request.GetFeatureName = none ∨
      ¬ specPermittedToSend request.GetFeatureName) :
    (SendRequestAsync cs clientId request callback).2 ≠ none ∧
      (SendRequestAsync cs clientId request callback).1.trace = [] ∧
      (SendRequestAsync cs clientId request callback).1.status = .returned ∧
      (SendRequestAsync cs clientId request callback).1.cs.callbackQueue = cs.callbackQueue := by
  cases hp : cs.server.GetProfileForFeature request.GetFeatureName with
  | none =>
    rw [SendRequestAsync_of_missing_profile cs clientId request callback hp]
    exact ⟨by simp, rfl, rfl, rfl⟩
  | some p =>
    have hf : request.GetFeatureName ∉ sendableFeatureNames := by
      rw [mem_sendableFeatureNames_iff]
      rcases hfail with h | h
      · rw [hp] at h; cases h
      · exact h
    rw [SendRequestAsync_of_not_sendable cs clientId request callback p hp hf]
    exact ⟨by simp, rfl, rfl, rfl⟩

/-- Witness of C2: `Heartbeat`, a ChargePoint→CentralSystem feature, on the permissive
server. -/
theorem preflight_failure_has_no_effect_witness :
    (permissiveServer.GetProfileForFeature (Request.mk "Heartbeat" "").GetFeatureName = none ∨
        ¬ specPermittedToSend (Request.mk "Heartbeat" "").GetFeatureName) ∧
      (SendRequestAsync (newCentralSystem permissiveServer) "cp1"
        (Request.mk "Heartbeat" "") (.generic 0)).1.trace = [] :=
  ⟨Or.inr (by decide),
    (preflight_failure_has_no_effect (newCentralSystem permissiveServer) "cp1"
      (Request.mk "Heartbeat" "") (.generic 0) (Or.inr (by decide))).2.1⟩

/-- C3, evaluated at the failing input: with every feature registered, the typed action
`CertificateSigned` builds a `SignCertificate` request, which the direction check of
`SendRequestAsync` refuses; nothing is queued or sent. The feature of the action,
`CertificateSigned`, is one that the spec permits a central system to send. -/
theorem certificateSigned_builds_signCertificate_and_is_refused :
    TypedAction.CertificateSigned.requestFeatureName = "SignCertificate" ∧
      TypedAction.CertificateSigned.featureName = "CertificateSigned" ∧
      specPermittedToSend TypedAction.CertificateSigned.featureName ∧
      (∀ a : TypedAction, a = .CertificateSigned ∨
        (a.requestFeatureName = a.featureName ∧ a.requestFeatureName ∈ sendableFeatureNames)) ∧
      (TypedAction.CertificateSigned.call (newCentralSystem permissiveServer) "cp1" 0 "csr").2
        = some (.plain "unsupported action SignCertificate on central system, cannot send request") ∧
      (TypedAction.CertificateSigned.call (newCentralSystem permissiveServer) "cp1" 0 "csr").1.trace
        = [] := by
  refine ⟨rfl, rfl, by decide, ?_, ?_, ?_⟩
  · intro a
    cases a <;> first | exact Or.inl rfl | exact Or.inr ⟨rfl, by decide⟩
  · decide
  · decide

/-- C4, evaluated at the failing input: the generic callback that `GetLog` registers, run on
a nil confirmation and a disconnect error, panics in the type assertion and never calls the
typed callback; the one of `ChangeAvailability`, which tests for nil first, calls the typed
callback once with `(nil, err)`. -/
theorem genericCallback_of_GetLog_panics_on_nil :
    genericCallback .GetLog 7 .nil
        (some (.ocpp ⟨"GenericError", "client disconnected, no response received from client", ""⟩))
      = ([], .panicked) ∧
    genericCallback .ChangeAvailability 7 .nil
        (some (.ocpp ⟨"GenericError", "client disconnected, no response received from client", ""⟩))
      = ([.typedCallback 7 none
          (some (.ocpp ⟨"GenericError", "client disconnected, no response received from client",
            ""⟩))], .returned) ∧
    genericCallback .GetLog 7 (.ptr ⟨"*logging.GetLogResponse", "GetLog", "Accepted"⟩) none
      = ([.typedCallback 7 (some ⟨"*logging.GetLogResponse", "GetLog", "Accepted"⟩) none],
          .returned) := by
  refine ⟨?_, ?_, ?_⟩ <;> decide

/-! ## Inbound properties -/

/-- C5. For an inbound CALL whose action has no registered profile, `handleIncomingRequest`
sends exactly one CALLERROR, to the originating charge point, with the request id of the
CALL, the code `NotImplemented` and the description "no handler for action <action>
implemented"; it sends no CALLRESULT and calls no handler. -/
theorem unregistered_action_gets_NotImplemented (cs : CentralSystem) (chargePoint : String)
    (request : Request) (requestId action : String)
    (hnotfound : cs.server.GetProfileForFeature action = none) :
    (handleIncomingRequest cs chargePoint request requestId action).replies =
        [.SendError chargePoint requestId "NotImplemented"
          ("no handler for action " ++ action ++ " implemented")] ∧
      (handleIncomingRequest cs chargePoint request requestId action).handlerCalls = [] := by
  simp only [handleIncomingRequest, hnotfound, Run.replies, Run.handlerCalls,
    notImplementedError_trace]
  split <;> simp [Event.isReply, Event.isHandlerCall, ocppj.NotImplemented]

/-- Witness of C5: the scenario of the spec, `UnknownAction` with request id `abc123`. -/
theorem unregistered_action_gets_NotImplemented_witness :
    emptyServer.GetProfileForFeature "UnknownAction" = none ∧
      (handleIncomingRequest (newCentralSystem emptyServer) "cp1" ⟨"UnknownAction", ""⟩
          "abc123" "UnknownAction").replies =
        [.SendError "cp1" "abc123" "NotImplemented"
          "no handler for action UnknownAction implemented"] :=
  ⟨rfl, (unregistered_action_gets_NotImplemented (newCentralSystem emptyServer) "cp1"
    ⟨"UnknownAction", ""⟩ "abc123" "UnknownAction" rfl).1⟩

/-- C6, counterexample. `Heartbeat` is registered under the profile `Certificates`, for
which the central system has no handler (it has no such field); the core handler is set.
The CALL is answered by the handler operation `OnHeartbeat` and a CALLRESULT, not by a
`NotSupported` CALLERROR. -/
theorem heartbeat_under_certificates_is_answered_by_handler :
    heartbeatUnderCertificatesCS.server.GetProfileForFeature "Heartbeat"
        = some certificates.ProfileName ∧
      certificates.ProfileName ∈ profileTags ∧
      hasHandlerFor heartbeatUnderCertificatesCS certificates.ProfileName = false ∧
      (handleIncomingRequest heartbeatUnderCertificatesCS "cp1" ⟨"Heartbeat", ""⟩ "id1"
          "Heartbeat").trace =
        [.handler "OnHeartbeat" "cp1" ⟨"Heartbeat", ""⟩,
         .SendResponse "cp1" "id1" exampleConfirmation] := by
  refine ⟨by decide, by decide, by decide, by decide⟩

/-- C6, amended. For an inbound CALL whose action is registered under a profile for which the
central system has no handler set, and whose action, when that profile is one without a
handler field (`Certificates`, `ExtendedTriggerMessage`), is not one of the actions that
`handleIncomingRequest` dispatches to a handler: the reply is exactly one CALLERROR with code
`NotSupported` and the request id of the CALL, and no handler is called. -/
theorem no_handler_for_profile_gets_NotSupported (cs : CentralSystem) (chargePoint : String)
    (request : Request) (requestId action profileName : String)
    (hreg : cs.server.GetProfileForFeature action = some profileName)
    (hnone : hasHandlerFor cs profileName = false)
    (hfield : profileName ∉ handlerProfileNames → action ∉ inboundFeatureNames) :
    (handleIncomingRequest cs chargePoint request requestId action).replies =
        [.SendError chargePoint requestId "NotSupported"
          ("unsupported action " ++ action ++ " on central system")] ∧
      (handleIncomingRequest cs chargePoint request requestId action).handlerCalls = [] := by
  have key : (handleIncomingRequest cs chargePoint request requestId action).trace =
      (notSupportedError cs chargePoint requestId action).trace := by
    by_cases hp : profileName ∈ handlerProfileNames
    · simp [handleIncomingRequest, hreg, handlerMissing_of_no_handler cs profileName hp hnone]
    · simp [handleIncomingRequest, hreg, handlerMissing_of_not_handlerProfile cs profileName hp,
        dispatch_of_not_inbound cs chargePoint request action (hfield hp)]
  simp only [Run.replies, Run.handlerCalls, key, notSupportedError_trace]
  split <;> simp [Event.isReply, Event.isHandlerCall, ocppj.NotSupported]

/-- Witness of C6 amended: `Heartbeat` under the security profile, no security handler set. -/
theorem no_handler_for_profile_gets_NotSupported_witness :
    permissiveServer.GetProfileForFeature "Heartbeat" = some security.ProfileName ∧
      hasHandlerFor (newCentralSystem permissiveServer) security.ProfileName = false ∧
      (handleIncomingRequest (newCentralSystem permissiveServer) "cp1" ⟨"Heartbeat", ""⟩ "id1"
          "Heartbeat").replies =
        [.SendError "cp1" "id1" "NotSupported"
          "unsupported action Heartbeat on central system"] :=
  ⟨rfl, by decide,
    (no_handler_for_profile_gets_NotSupported (newCentralSystem permissiveServer) "cp1"
      ⟨"Heartbeat", ""⟩ "id1" "Heartbeat" security.ProfileName rfl (by decide)
      (fun h => absurd (by decide) h)).1⟩

/-- C7, evaluated at the failing input. `Heartbeat` is registered under the profile
`Certificates`, no handler is set, every send succeeds, and the CALL carries a `Heartbeat`
request. The check on the handler of the profile passes (there is no case for
`Certificates`), the case of `Heartbeat` calls `OnHeartbeat` on the nil core handler, the run
panics and no reply frame is sent. With `Heartbeat` registered under `Core` instead, the same
CALL finds the core handler nil in the check and gets one `NotSupported` CALLERROR. -/
theorem heartbeat_without_core_handler_gets_no_reply :
    (newCentralSystem heartbeatUnderCertificatesServer).server.GetProfileForFeature "Heartbeat"
        = some certificates.ProfileName ∧
      (handleIncomingRequest (newCentralSystem heartbeatUnderCertificatesServer) "cp1"
        ⟨"Heartbeat", ""⟩ "id1" "Heartbeat").status = .panicked ∧
      (handleIncomingRequest (newCentralSystem heartbeatUnderCertificatesServer) "cp1"
        ⟨"Heartbeat", ""⟩ "id1" "Heartbeat").trace = [] ∧
      (handleIncomingRequest (newCentralSystem heartbeatUnderCertificatesServer) "cp1"
        ⟨"Heartbeat", ""⟩ "id1" "Heartbeat").replies = [] ∧
      (handleIncomingRequest (newCentralSystem standardServer) "cp1"
        ⟨"Heartbeat", ""⟩ "id1" "Heartbeat").trace =
        [.SendError "cp1" "id1" "NotSupported"
          "unsupported action Heartbeat on central system"] := by
  refine ⟨by decide, by decide, by decide, by decide, by decide⟩

/-- C8. In `sendResponse`, for a non-nil handler error: if the error is an `ocpp.Error`, the
CALLERROR sent carries the code and the description of that error; otherwise it carries the
code `InternalError` and, as description, the message of the error. In both cases it is the
only reply: no CALLRESULT is sent, whatever the confirmation. -/
theorem handler_error_is_translated (cs : CentralSystem) (chargePointId : String)
    (confirmation : Response) (requestId : String) :
    (∀ ocppError : OcppError,
      (sendResponse cs chargePointId confirmation (some (.ocpp ocppError)) requestId).replies =
        [.SendError chargePointId requestId ocppError.Code ocppError.Description]) ∧
    (∀ msg : String,
      (sendResponse cs chargePointId confirmation (some (.plain msg)) requestId).replies =
        [.SendError chargePointId requestId "InternalError" (GoError.plain msg).Error]) := by
  constructor
  · intro ocppError
    simp only [sendResponse, Run.replies]
    split <;> simp [Run.after, error_trace, Event.isReply]
  · intro msg
    simp only [sendResponse, Run.replies]
    split <;> simp [Run.after, error_trace, Event.isReply, ocppj.InternalError, GoError.Error]

/-- C9, counterexample. A handler returned a nil `*core.BootNotificationConfirmation` and no
error; the errors channel exists and is empty. What `sendResponse` reports, and what the
channel then holds, is the plain error "empty confirmation to cp1 for request 42": no
`ocpp.Error`, hence no error of code `InternalError`, is reported. -/
theorem empty_confirmation_reports_a_plain_error :
    (sendResponse (listeningCentralSystem emptyServer) "cp1"
        (.typedNil "*core.BootNotificationConfirmation") none "42").reported =
        [.plain "empty confirmation to cp1 for request 42"] ∧
      (sendResponse (listeningCentralSystem emptyServer) "cp1"
        (.typedNil "*core.BootNotificationConfirmation") none "42").cs.errC =
        some [.plain "empty confirmation to cp1 for request 42"] ∧
      ¬ ∃ ocppError : OcppError, GoError.ocpp ocppError ∈
        (sendResponse (listeningCentralSystem emptyServer) "cp1"
          (.typedNil "*core.BootNotificationConfirmation") none "42").reported := by
  have h : (sendResponse (listeningCentralSystem emptyServer) "cp1"
        (.typedNil "*core.BootNotificationConfirmation") none "42").reported =
        [.plain "empty confirmation to cp1 for request 42"] := by decide
  refine ⟨h, by decide, ?_⟩
  rw [h]
  simp

/-- C9, amended. When a handler returns no error and an empty confirmation (the nil interface
or a typed nil pointer), `sendResponse` sends one CALLERROR with code `GenericError` and the
description "empty confirmation to <peer> for request <id>", sends no CALLRESULT, and hands
to `cs.error` a plain error with that same text (not an `ocpp.Error` of code
`InternalError`); an existing, empty errors channel then holds exactly that error. -/
theorem empty_confirmation_gets_GenericError (cs : CentralSystem) (chargePointId : String)
    (confirmation : Response) (requestId : String)
    (hempty : confirmation = .nil ∨ ∃ goType, confirmation = .typedNil goType) :
    (sendResponse cs chargePointId confirmation none requestId).trace =
        [.SendError chargePointId requestId "GenericError"
            ("empty confirmation to " ++ chargePointId ++ " for request " ++ requestId),
         .error (.plain
            ("empty confirmation to " ++ chargePointId ++ " for request " ++ requestId))] ∧
      (cs.errC = some [] →
        (sendResponse cs chargePointId confirmation none requestId).cs.errC =
          some [.plain
            ("empty confirmation to " ++ chargePointId ++ " for request " ++ requestId)]) := by
  rcases hempty with h | ⟨t, h⟩ <;> subst h
  · refine ⟨by simp [sendResponse, Run.after, error_trace, ocppj.GenericError], fun hc => ?_⟩
    simpa [sendResponse, Run.after] using (error_on_empty_channel cs _ hc).1
  · refine ⟨by simp [sendResponse, Run.after, error_trace, ocppj.GenericError], fun hc => ?_⟩
    simpa [sendResponse, Run.after] using (error_on_empty_channel cs _ hc).1

/-- Witness of C9 amended: the nil interface as confirmation. -/
theorem empty_confirmation_gets_GenericError_witness :
    (Response.nil = .nil ∨ ∃ goType, Response.nil = .typedNil goType) ∧
      (sendResponse (listeningCentralSystem emptyServer) "cp1" .nil none "42").trace =
        [.SendError "cp1" "42" "GenericError" ("empty confirmation to " ++ "cp1" ++
            " for request " ++ "42"),
         .error (.plain ("empty confirmation to " ++ "cp1" ++ " for request " ++ "42"))] :=
  ⟨Or.inl rfl,
    (empty_confirmation_gets_GenericError (listeningCentralSystem emptyServer) "cp1" .nil "42"
      (Or.inl rfl)).1⟩

/-- C10, counterexample. Every send of the server fails with "write failed". On the
empty-confirmation path the failed `SendError` is followed by no call of
`HandleFailedResponseError`, and the error reported is the empty-confirmation error, not the
failure of the send. On the `NotImplemented` path the failure is reported, and no call of
`HandleFailedResponseError` is made either. -/
theorem empty_confirmation_send_failure_has_no_fallback :
    failingServer.SendError "cp1" "42" "GenericError"
        "empty confirmation to cp1 for request 42" = some (.plain "write failed") ∧
      (sendResponse (listeningCentralSystem failingServer) "cp1" .nil none "42").trace =
        [.SendError "cp1" "42" "GenericError" "empty confirmation to cp1 for request 42",
         .error (.plain "empty confirmation to cp1 for request 42")] ∧
      (handleIncomingRequest (listeningCentralSystem failingServer) "cp1" ⟨"Foo", ""⟩ "42"
          "Foo").trace =
        [.SendError "cp1" "42" "NotImplemented" "no handler for action Foo implemented",
         .error (.plain
          "replying cp cp1 to request 42 with \x27not implemented\x27: write failed")] := by
  refine ⟨by decide, by decide, by decide⟩

/-- C10, amended. When the send of the reply fails with `sendErr`: on the CALLRESULT path and
on the translated-handler-error path of `sendResponse`, `HandleFailedResponseError` is called
with the same peer and request id, and the failure, wrapped, is handed to `cs.error`; on the
`NotImplemented` and `NotSupported` paths the failure, wrapped, is handed to `cs.error`. On
the empty-confirmation path the result of the send is discarded: the effects are the
`GenericError` CALLERROR attempt and the report of the empty-confirmation error, whether or
not the send fails. -/
theorem reply_send_failure_is_reported (cs : CentralSystem) (chargePointId requestId : String)
    (sendErr : GoError) :
    (∀ (confirmation : Response) (ocppError : OcppError),
      cs.server.SendError chargePointId requestId ocppError.Code ocppError.Description
          = some sendErr →
        (sendResponse cs chargePointId confirmation (some (.ocpp ocppError)) requestId).trace =
          [.SendError chargePointId requestId ocppError.Code ocppError.Description,
           .HandleFailedResponseError chargePointId requestId sendErr "",
           .error (.plain ("error replying cp " ++ chargePointId ++ " to request " ++
              requestId ++ " with \x27internal error\x27: " ++ sendErr.Error))]) ∧
    (∀ (confirmation : Response) (msg : String),
      cs.server.SendError chargePointId requestId "InternalError" msg = some sendErr →
        (sendResponse cs chargePointId confirmation (some (.plain msg)) requestId).trace =
          [.SendError chargePointId requestId "InternalError" msg,
           .HandleFailedResponseError chargePointId requestId sendErr "",
           .error (.plain ("error replying cp " ++ chargePointId ++ " to request " ++
              requestId ++ " with \x27internal error\x27: " ++ sendErr.Error))]) ∧
    (∀ c : Confirmation,
      cs.server.SendResponse chargePointId requestId c = some sendErr →
        (sendResponse cs chargePointId (.ptr c) none requestId).trace =
          [.SendResponse chargePointId requestId c,
           .HandleFailedResponseError chargePointId requestId sendErr c.GetFeatureName,
           .error (.plain ("error replying cp " ++ chargePointId ++ " to request " ++
              requestId ++ ": " ++ sendErr.Error))]) ∧
    (∀ action : String,
      cs.server.SendError chargePointId requestId "NotImplemented"
          ("no handler for action " ++ action ++ " implemented") = some sendErr →
        (notImplementedError cs chargePointId requestId action).reported =
          [.plain ("replying cp " ++ chargePointId ++ " to request " ++ requestId ++
            " with \x27not implemented\x27: " ++ sendErr.Error)]) ∧
    (∀ action : String,
      cs.server.SendError chargePointId requestId "NotSupported"
          ("unsupported action " ++ action ++ " on central system") = some sendErr →
        (notSupportedError cs chargePointId requestId action).reported =
          [.plain ("replying cp " ++ chargePointId ++ " to request " ++ requestId ++
            " with \x27not supported\x27: " ++ sendErr.Error)]) ∧
    (∀ confirmation : Response, confirmation = .nil ∨ (∃ t, confirmation = .typedNil t) →
        (sendResponse cs chargePointId confirmation none requestId).trace =
          [.SendError chargePointId requestId "GenericError"
              ("empty confirmation to " ++ chargePointId ++ " for request " ++ requestId),
           .error (.plain
              ("empty confirmation to " ++ chargePointId ++ " for request " ++ requestId))]) := by
  refine ⟨?_, ?_, ?_, ?_, ?_, ?_⟩
  · intro confirmation ocppError h
    simp [sendResponse, h, Run.after, error_trace]
  · intro confirmation msg h
    simp [sendResponse, h, Run.after, error_trace, ocppj.InternalError]
  · intro c h
    simp [sendResponse, h, Run.after, error_trace]
  · intro action h
    have h2 : cs.server.SendError chargePointId requestId ocppj.NotImplemented
        ("no handler for action " ++ action ++ " implemented") = some sendErr := h
    simp [Run.reported, notImplementedError_trace, h2]
  · intro action h
    have h2 : cs.server.SendError chargePointId requestId ocppj.NotSupported
        ("unsupported action " ++ action ++ " on central system") = some sendErr := h
    simp [Run.reported, notSupportedError_trace, h2]
  · rintro confirmation (h | ⟨t, h⟩) <;> subst h <;>
      simp [sendResponse, Run.after, error_trace, ocppj.GenericError]

/-- Witness of C10 amended: a failed CALLRESULT send on the failing server. -/
theorem reply_send_failure_is_reported_witness :
    failingServer.SendResponse "cp1" "42" exampleConfirmation = some (.plain "write failed") ∧
      (sendResponse (listeningCentralSystem failingServer) "cp1" (.ptr exampleConfirmation) none
          "42").trace =
        [.SendResponse "cp1" "42" exampleConfirmation,
         .HandleFailedResponseError "cp1" "42" (.plain "write failed")
            exampleConfirmation.GetFeatureName,
         .error (.plain ("error replying cp " ++ "cp1" ++ " to request " ++ "42" ++ ": " ++
            (GoError.plain "write failed").Error))] :=
  ⟨rfl,
    (reply_send_failure_is_reported (listeningCentralSystem failingServer) "cp1" "42"
      (.plain "write failed")).2.2.1 exampleConfirmation rfl⟩

/-! ## Disconnect, confirmations and the errors channel -/

/-- C11, evaluated at the failing input. After `cs.GetLog` and then `cs.Reset` for `cp1`, the
peer holds the closure of `GetLog` (pending) and the closure of `Reset` (queued). On
disconnect the loop dequeues the closure of `GetLog` and calls it with the nil confirmation
and the disconnect error; its type assertion panics. The closure of `Reset` is not called
and the owner's handler is not called. -/
theorem disconnect_panics_at_GetLog_callback :
    getLogThenResetCS.callbackQueue.held "cp1" = [.typed .GetLog 1, .typed .Reset 2] ∧
      (disconnectedClientHandler getLogThenResetCS "cp1").status = .panicked ∧
      (disconnectedClientHandler getLogThenResetCS "cp1").trace =
        [.SendRequest "cp1" ⟨"Reset", "Hard"⟩,
         .callback (.typed .GetLog 1) .nil (some (.ocpp ⟨"GenericError",
            "client disconnected, no response received from client", ""⟩))] ∧
      (disconnectedClientHandler getLogThenResetCS "cp1").callbackCalls =
        [.callback (.typed .GetLog 1) .nil (some (.ocpp ⟨"GenericError",
            "client disconnected, no response received from client", ""⟩))] ∧
      (disconnectedClientHandler getLogThenResetCS "cp1").trace.filter
        Event.isDisconnectedHandler = [] := by
  rw [getLogThenReset_disconnect]
  refine ⟨by decide, rfl, rfl, by decide, by decide⟩

/-- C12, evaluated at the failing input. After `cs.GetLog` and then `cs.Reset` for `cp1`,
the first run of the disconnect closure panics at the closure of `GetLog` and leaves the
closure of `Reset` held for the peer: it does not drain the peer. A second run is then not a
no-op: it dequeues the closure of `Reset` and calls it, which calls the typed callback with
`(nil, err)`, and then calls the owner's handler. -/
theorem second_disconnect_after_panic_calls_Reset_callback :
    (disconnectedClientHandler getLogThenResetCS "cp1").status = .panicked ∧
      (disconnectedClientHandler getLogThenResetCS "cp1").cs.callbackQueue.held "cp1" =
        [.typed .Reset 2] ∧
      (disconnectedClientHandler (disconnectedClientHandler getLogThenResetCS "cp1").cs
          "cp1").trace =
        [.callback (.typed .Reset 2) .nil (some (.ocpp ⟨"GenericError",
            "client disconnected, no response received from client", ""⟩)),
         .typedCallback 2 none (some (.ocpp ⟨"GenericError",
            "client disconnected, no response received from client", ""⟩)),
         .disconnectedHandler "cp1"] ∧
      (disconnectedClientHandler (disconnectedClientHandler getLogThenResetCS "cp1").cs
          "cp1").cs.callbackQueue.held "cp1" = [] := by
  rw [getLogThenReset_disconnect]
  have hp : (getLogDequeuedCS.callbackQueue "cp1").pending = some (.typed .Reset 2) := by
    decide
  have hinv : (Callback.invoke (.typed .Reset 2) .nil (some disconnectError)).2
      = .returned := by decide
  have hp2 : (({ getLogDequeuedCS with
      callbackQueue := (getLogDequeuedCS.callbackQueue.Dequeue "cp1").1 } :
      CentralSystem).callbackQueue "cp1").pending = none := by decide
  have hdrain : drainCallbacks getLogDequeuedCS "cp1" =
      ⟨{ getLogDequeuedCS with
          callbackQueue := (getLogDequeuedCS.callbackQueue.Dequeue "cp1").1 },
        (getLogDequeuedCS.callbackQueue.Dequeue "cp1").2.1 ++
          (Callback.invoke (.typed .Reset 2) .nil (some disconnectError)).1, .returned⟩ := by
    rw [drainCallbacks_of_pending getLogDequeuedCS "cp1" _ hp, hinv]
    simp only [drainCallbacks_of_no_pending _ "cp1" hp2, Run.after, List.append_nil]
  refine ⟨rfl, by decide, ?_, ?_⟩
  · simp only [disconnectedClientHandler, hdrain]
    decide
  · simp only [disconnectedClientHandler, hdrain]
    decide

/-- C13. When a CALLRESULT arrives from a peer for which the callback queue holds no pending
callback, `handleIncomingConfirmation` calls no callback and sends no frame: its only effect
is the report, through `cs.error`, of the error "no handler available for call of type
<feature> from client <peer> for request <id>"; the callback queue is unchanged, and an
existing, empty errors channel then holds exactly that error. -/
theorem orphan_confirmation_is_reported (cs : CentralSystem) (chargePoint : String)
    (c : Confirmation) (requestId : String)
    (hnone : (cs.callbackQueue chargePoint).pending = none) :
    (handleIncomingConfirmation cs chargePoint (.ptr c) requestId).trace =
        [.error (.plain ("no handler available for call of type " ++ c.GetFeatureName ++
          " from client " ++ chargePoint ++ " for request " ++ requestId))] ∧
      (handleIncomingConfirmation cs chargePoint (.ptr c) requestId).cs.callbackQueue =
        cs.callbackQueue ∧
      (cs.errC = some [] →
        (handleIncomingConfirmation cs chargePoint (.ptr c) requestId).cs.errC =
            some [.plain ("no handler available for call of type " ++ c.GetFeatureName ++
              " from client " ++ chargePoint ++ " for request " ++ requestId)] ∧
          (handleIncomingConfirmation cs chargePoint (.ptr c) requestId).status = .returned) := by
  have hd : cs.callbackQueue.Dequeue chargePoint = (cs.callbackQueue, [], none) := by
    simp [CallbackQueue.Dequeue, hnone]
  refine ⟨?_, ?_, fun hc => ?_⟩
  · simp [handleIncomingConfirmation, hd, Run.after, error_trace]
  · simp only [handleIncomingConfirmation, hd, Run.after]
    unfold CentralSystem.error
    split
    · rfl
    · split <;> rfl
  · simpa [handleIncomingConfirmation, hd, Run.after] using error_on_empty_channel cs _ hc

/-- Witness of C13: a `Heartbeat` confirmation for a peer without calls. -/
theorem orphan_confirmation_is_reported_witness :
    ((listeningCentralSystem emptyServer).callbackQueue "cp1").pending = none ∧
      (handleIncomingConfirmation (listeningCentralSystem emptyServer) "cp1"
          (.ptr exampleConfirmation) "42").trace =
        [.error (.plain ("no handler available for call of type " ++
          exampleConfirmation.GetFeatureName ++ " from client " ++ "cp1" ++ " for request " ++
          "42"))] :=
  ⟨rfl, (orphan_confirmation_is_reported (listeningCentralSystem emptyServer) "cp1"
    exampleConfirmation "42" rfl).1⟩

/-- C14, counterexample. The errors channel made by `Errors()` holds one error. Reporting a
second error while it is full does not return: the run is blocked in the channel send. -/
theorem report_on_full_channel_blocks :
    ((listeningCentralSystem emptyServer).error (.plain "first")).status = .returned ∧
      ((listeningCentralSystem emptyServer).error (.plain "first")).cs.errC =
        some [.plain "first"] ∧
      (((listeningCentralSystem emptyServer).error (.plain "first")).cs.error
        (.plain "second")).status = .blocked := by
  refine ⟨by decide, by decide, by decide⟩

/-- C14, amended. The errors channel returned by `Errors()` has capacity 1: on a central
system without a channel, `Errors()` makes an empty channel, a first report is stored and
returns, and a second report, made while the channel is full, blocks in the channel send
and leaves the content of the channel unchanged. -/
theorem errors_channel_has_capacity_one (cs : CentralSystem) (e1 e2 : GoError)
    (hfresh : cs.errC = none) :
    cs.Errors.errC = some [] ∧
      (cs.Errors.error e1).status = .returned ∧
      (cs.Errors.error e1).cs.errC = some [e1] ∧
      ((cs.Errors.error e1).cs.error e2).status = .blocked ∧
      ((cs.Errors.error e1).cs.error e2).cs.errC = some [e1] := by
  simp [CentralSystem.Errors, CentralSystem.error, hfresh, errCCapacity]

/-- Witness of C14 amended: a new central system. -/
theorem errors_channel_has_capacity_one_witness :
    (newCentralSystem emptyServer).errC = none ∧
      (((newCentralSystem emptyServer).Errors.error (.plain "first")).cs.error
        (.plain "second")).status = .blocked :=
  ⟨rfl, (errors_channel_has_capacity_one (newCentralSystem emptyServer) (.plain "first")
    (.plain "second") rfl).2.2.2.1⟩

/-- C15. With handlers set for all profiles, the action registered and the request of the
type of the action (what the codec decodes a CALL into),
`handleIncomingRequest` calls a handler operation if and only if the action is one of the 13
ChargePoint→CentralSystem features of the spec or `DataTransfer`; it then calls the operation
named after the action on the handler of the profile of the action and replies with what
`sendResponse` makes of the result. Every other registered action is answered with one
`NotSupported` CALLERROR and no handler call. -/
theorem inbound_routing (cs : CentralSystem) (chargePoint : String) (request : Request)
    (requestId action profileName : String) (hall : allHandlersSet cs)
    (hreg : cs.server.GetProfileForFeature action = some profileName)
    (hreq : request.GetFeatureName = action) :
    ((handleIncomingRequest cs chargePoint request requestId action).handlerCalls ≠ [] ↔
        specInbound action) ∧
      (specInbound action →
        (routedOperation cs action).isSome = true ∧
        (handleIncomingRequest cs chargePoint request requestId action).handlerCalls =
          [.handler ("On" ++ action) chargePoint request] ∧
        ∀ (op : HandlerOp) (goType : String), routedOperation cs action = some op →
          (handleIncomingRequest cs chargePoint request requestId action).trace =
            .handler ("On" ++ action) chargePoint request ::
              (sendResponse cs chargePoint (Response.ofPtr goType (op chargePoint request).1)
                (op chargePoint request).2 requestId).trace) ∧
      (¬ specInbound action →
        (handleIncomingRequest cs chargePoint request requestId action).replies =
          [.SendError chargePoint requestId "NotSupported"
            ("unsupported action " ++ action ++ " on central system")] ∧
        (handleIncomingRequest cs chargePoint request requestId action).handlerCalls = []) := by
  have hrouted : specInbound action →
      (routedOperation cs action).isSome = true ∧
      (handleIncomingRequest cs chargePoint request requestId action).handlerCalls =
        [.handler ("On" ++ action) chargePoint request] ∧
      ∀ (op : HandlerOp) (goType : String), routedOperation cs action = some op →
        (handleIncomingRequest cs chargePoint request requestId action).trace =
          .handler ("On" ++ action) chargePoint request ::
            (sendResponse cs chargePoint (Response.ofPtr goType (op chargePoint request).1)
              (op chargePoint request).2 requestId).trace := by
    intro hin
    obtain ⟨hsome, htrace⟩ :=
      routed_of_inbound cs chargePoint request requestId action profileName hall hreg hreq hin
    obtain ⟨op, hop⟩ := Option.isSome_iff_exists.mp hsome
    refine ⟨hsome, ?_, htrace⟩
    rw [Run.handlerCalls, htrace op "" hop]
    simp [Event.isHandlerCall, sendResponse_handlerCalls]
  have hother : ¬ specInbound action →
      (handleIncomingRequest cs chargePoint request requestId action).replies =
        [.SendError chargePoint requestId "NotSupported"
          ("unsupported action " ++ action ++ " on central system")] ∧
      (handleIncomingRequest cs chargePoint request requestId action).handlerCalls = [] := by
    intro hnin
    have hnin' : action ∉ inboundFeatureNames := fun h =>
      hnin ((mem_inboundFeatureNames_iff action).mp h)
    have key : (handleIncomingRequest cs chargePoint request requestId action).trace =
        (notSupportedError cs chargePoint requestId action).trace := by
      simp [handleIncomingRequest, hreg, handlerMissing_of_allHandlersSet cs profileName hall,
        dispatch_of_not_inbound cs chargePoint request action hnin']
    simp only [Run.replies, Run.handlerCalls, key, notSupportedError_trace]
    split <;> simp [Event.isReply, Event.isHandlerCall, ocppj.NotSupported]
  refine ⟨⟨fun hcalls => ?_, fun hin => ?_⟩, hrouted, hother⟩
  · by_contra hnin
    exact hcalls (hother hnin).2
  · rw [(hrouted hin).2.1]
    simp

/-- Witness of C15: `Heartbeat` on a central system with every handler set. -/
theorem inbound_routing_witness :
    allHandlersSet fullyHandledCS ∧
      fullyHandledCS.server.GetProfileForFeature "Heartbeat" = some security.ProfileName ∧
      (Request.mk "Heartbeat" "").GetFeatureName = "Heartbeat" ∧
      ((handleIncomingRequest fullyHandledCS "cp1" ⟨"Heartbeat", ""⟩ "id1"
          "Heartbeat").handlerCalls ≠ [] ↔ specInbound "Heartbeat") :=
  ⟨by unfold allHandlersSet; decide, rfl, rfl,
    (inbound_routing fullyHandledCS "cp1" ⟨"Heartbeat", ""⟩ "id1" "Heartbeat"
      security.ProfileName (by unfold allHandlersSet; decide) rfl rfl).1⟩

/-- C16. `handleIncomingConfirmation` does not look at the request id of the response: for a
peer with a pending callback and any two request ids the runs are the same, the pending
(head) callback being dequeued and called once with `(confirmation, nil)`. -/
theorem confirmation_outcome_ignores_requestId (cs : CentralSystem) (chargePoint : String)
    (confirmation : Response) (requestId1 requestId2 : String) (cb : Callback)
    (hpending : (cs.callbackQueue chargePoint).pending = some cb) :
    handleIncomingConfirmation cs chargePoint confirmation requestId1 =
        handleIncomingConfirmation cs chargePoint confirmation requestId2 ∧
      (handleIncomingConfirmation cs chargePoint confirmation requestId1).callbackCalls =
        [.callback cb confirmation none] ∧
      (handleIncomingConfirmation cs chargePoint confirmation requestId1).cs.callbackQueue.held
          chargePoint =
        (cs.callbackQueue chargePoint).queued.map QueuedEntry.callback := by
  obtain ⟨hd, hheld, -, -, hev, -⟩ := Dequeue_of_pending cs.callbackQueue chargePoint cb hpending
  obtain ⟨hc, -⟩ := invoke_callbackCalls cb confirmation none
  refine ⟨?_, ?_, ?_⟩
  · simp [handleIncomingConfirmation, hd]
  · simp [handleIncomingConfirmation, hd, Run.callbackCalls, List.filter_append, hev, hc]
  · simpa [handleIncomingConfirmation, hd] using hheld

/-- Witness of C16: `cp1` has a pending call; the request ids `1` and `2`. -/
theorem confirmation_outcome_ignores_requestId_witness :
    (queuedCS.callbackQueue "cp1").pending = some (.generic 1) ∧
      handleIncomingConfirmation queuedCS "cp1" (.ptr exampleConfirmation) "1" =
        handleIncomingConfirmation queuedCS "cp1" (.ptr exampleConfirmation) "2" :=
  ⟨by decide, (confirmation_outcome_ignores_requestId queuedCS "cp1" (.ptr exampleConfirmation)
    "1" "2" (.generic 1) (by decide)).1⟩

/-- C17. When the registry maps each feature that a charge point sends to its standard
OCPP 1.6 profile name, `handleIncomingRequest` never calls an operation on a nil handler: for
an action that reaches the switch on `action`, the handler field that its case uses is one
found non-nil by the check made for the profile of the action. The only panic left to a run
is the type assertion on the request, and a run whose request is of the type of the action
does not panic. -/
theorem standard_registry_never_calls_nil_handler (cs : CentralSystem) (chargePoint : String)
    (request : Request) (requestId action : String) (hstd : standardRegistry cs.server) :
    ((handleIncomingRequest cs chargePoint request requestId action).status = .panicked →
        dispatch cs chargePoint request action = .typeAssertionFailed) ∧
      (request.GetFeatureName = action →
        (handleIncomingRequest cs chargePoint request requestId action).status ≠ .panicked) ∧
      ∀ profileName, cs.server.GetProfileForFeature action = some profileName →
        handlerMissing cs profileName = false →
        dispatch cs chargePoint request action ≠ .nilHandler := by
  have key : (handleIncomingRequest cs chargePoint request requestId action).status = .panicked →
      dispatch cs chargePoint request action = .typeAssertionFailed := by
    cases hreg : cs.server.GetProfileForFeature action with
    | none =>
      intro h
      exact absurd (by simpa [handleIncomingRequest, hreg] using h)
        (notImplementedError_status cs chargePoint requestId action)
    | some p =>
      by_cases hmiss : handlerMissing cs p = true
      · intro h
        exact absurd (by simpa [handleIncomingRequest, hreg, hmiss] using h)
          (notSupportedError_status cs chargePoint requestId action)
      · have hmiss' : handlerMissing cs p = false := by simpa using hmiss
        cases hd : dispatch cs chargePoint request action with
        | unsupported =>
          intro h
          exact absurd (by simpa [handleIncomingRequest, hreg, hmiss, hd] using h)
            (notSupportedError_status cs chargePoint requestId action)
        | nilHandler =>
          exact absurd hd
            (dispatch_ne_nilHandler cs chargePoint request action p hstd hreg hmiss')
        | typeAssertionFailed => exact fun _ => rfl
        | result operation confirmation err =>
          intro h
          exact absurd (by simpa [handleIncomingRequest, hreg, hmiss, hd, Run.after] using h)
            (sendResponse_status cs chargePoint confirmation err requestId)
  refine ⟨key, fun hreq hpanic => ?_, fun profileName hreg hmiss =>
    dispatch_ne_nilHandler cs chargePoint request action profileName hstd hreg hmiss⟩
  exact dispatch_ne_typeAssertionFailed cs chargePoint request action hreq (key hpanic)

/-- Witness of C17: the standard registry, no handler set, a `Heartbeat` CALL. -/
theorem standard_registry_never_calls_nil_handler_witness :
    standardRegistry (newCentralSystem standardServer).server ∧
      (handleIncomingRequest (newCentralSystem standardServer) "cp1" ⟨"Heartbeat", ""⟩ "id1"
        "Heartbeat").status ≠ .panicked :=
  ⟨fun _ _ _ h1 h2 => Option.some.inj (h1.symm.trans h2),
    (standard_registry_never_calls_nil_handler (newCentralSystem standardServer) "cp1"
      ⟨"Heartbeat", ""⟩ "id1" "Heartbeat"
      (fun _ _ _ h1 h2 => Option.some.inj (h1.symm.trans h2))).2.1 rfl⟩

end Ocpp16
